import Mathlib

/-!
Shallow embedding of the core of the `lkkone/monitor` uptime-monitoring
service (TypeScript), covering the retry wrapper (`checker.ts`), the status
recorder (`recordMonitorStatus`), the compact-message and compact-ID
utilities, the ICMP / database / port executors and the notification
decision engine (`notification-service.ts`).

Modelling conventions: JS numbers that are used as integers become `ℕ`/`ℤ`;
measured times that may be fractional become `ℚ` (a real-number idealization
of IEEE doubles); nullable values become `Option`; code that can throw
returns `Except`; every I/O interaction (socket, ping probe, database
connection, dispatch) is an oracle argument describing the outcome the
outside world produced.
-/

namespace CoolMonitor

/-- Result of one monitor check (`CheckResult` / `MonitorCheckResult` in the
source): `status` is 0 = DOWN, 1 = UP, 2 = PENDING. -/
structure CheckRes where
  status : ℕ
  message : String
  ping : Option ℚ := none
deriving Repr, DecidableEq

/-- Observable scheduling events of the retry wrapper: which oracle draw was
consumed (`attemptEv i` is the i-th invocation of the underlying check,
0 = the initial one) and how long the wrapper slept (seconds). -/
inductive RetryEvent where
  | attemptEv (i : ℕ)
  | sleepEv (seconds : ℕ)
deriving Repr, DecidableEq

/-- The retry-relevant fields of a `Monitor` row. -/
structure RetryCfg where
  retries : ℕ
  retryInterval : ℕ
deriving Repr, DecidableEq

mutual

/-- Embedding of `executeMonitorCheck` (checker.ts lines 11-95).  The
type-dispatched executor call and every inner re-invocation are drawn from
the oracle `attempts`: draw `n` is the result of the (n+1)-th underlying
check.  Besides the final `CheckResult` the embedding returns the trace of
attempts and sleeps, which the source performs as side effects. -/
def executeMonitorCheck (attempts : ℕ → CheckRes) (cfg : RetryCfg) :
    CheckRes × List RetryEvent :=
  let result := attempts 0
  if _h : result.status = 0 ∧ 0 < cfg.retries then
    let (r, evs) := retryLoop attempts cfg result 0
    (r, RetryEvent.attemptEv 0 :: evs)
  else
    (result, [RetryEvent.attemptEv 0])
termination_by (cfg.retries, cfg.retries + 1)

/-- The `for (let i = 0; i < monitor.retries; i++)` loop of
`executeMonitorCheck`.  Each iteration sleeps `retryInterval` seconds and
re-invokes `executeMonitorCheck` with `retries := 0` (checker.ts line 71,
preventing exponential expansion); the inner invocation consumes the oracle
from index `i + 1` on. -/
def retryLoop (attempts : ℕ → CheckRes) (cfg : RetryCfg) (first : CheckRes)
    (i : ℕ) : CheckRes × List RetryEvent :=
  if _h : i < cfg.retries then
    let inner := executeMonitorCheck (fun n => attempts (i + 1 + n))
      { cfg with retries := 0 }
    let retryResult := inner.1
    if retryResult.status = 1 then
      ({ retryResult with
          message := "重试成功 (" ++ toString (i + 1) ++ "/" ++
            toString cfg.retries ++ "): " ++ retryResult.message },
        [RetryEvent.sleepEv cfg.retryInterval, RetryEvent.attemptEv (i + 1)])
    else
      let (r, evs) := retryLoop attempts cfg first (i + 1)
      (r, RetryEvent.sleepEv cfg.retryInterval ::
        RetryEvent.attemptEv (i + 1) :: evs)
  else
    ({ first with
        message := "重试" ++ toString cfg.retries ++ "次后仍然失败: " ++
          first.message }, [])
termination_by (cfg.retries, cfg.retries - i)

end

/-! ## Compact message and status recorder -/

/-- Embedding of `generateCompactMessage` (compact-message utility): `null`
for UP rows, the original message for DOWN rows, the literal `"等待中"` for
PENDING, and the original message for any other status.  The `ping`
parameter is accepted but, as in the source, never used. -/
def generateCompactMessage (status : ℕ) (originalMessage : String)
    (_ping : Option ℚ) : Option String :=
  if status = 1 then none
  else if status = 0 then some originalMessage
  else if status = 2 then some "等待中"
  else some originalMessage

/-- One `MonitorStatus` history row. -/
structure HistRow where
  id : String
  monitorId : String
  status : ℕ
  message : Option String
  ping : Option ℚ
  timestamp : ℤ
deriving Repr, DecidableEq

/-- The persisted state the recorder touches: the (append-only,
chronologically ordered) history rows of one monitor together with the
monitor's last-known fields. -/
structure MonState where
  rows : List HistRow
  lastCheckAt : Option ℤ := none
  lastStatus : Option ℕ := none
  lastMessage : Option String := none
  lastPing : Option ℚ := none
deriving Repr, DecidableEq

/-- World outcomes for one `recordMonitorStatus` call: whether the
`monitorStatus.create` insert and the `monitor.update` call succeed, the
wall clock, and the compact ID the generator produced. -/
structure RecordEnv where
  insertOk : Bool
  updateOk : Bool
  now : ℤ
  newId : String
deriving Repr, DecidableEq

/-- Embedding of `recordMonitorStatus` (status recorder): compute the
compact message, insert the history row, then — in a second, separate
database call, not a transaction — update the monitor's last-known fields.
The returned state is whatever the database holds when the call finishes,
also on the throwing paths (a failed update does not roll the insert
back). -/
def recordMonitorStatus (env : RecordEnv) (st : MonState) (monitorId : String)
    (status : ℕ) (message : String) (ping : Option ℚ)
    (_monitorType : Option String) : MonState × Except String HistRow :=
  let compactMessage := generateCompactMessage status message ping
  if env.insertOk = false then
    (st, Except.error "记录监控状态失败")
  else
    let record : HistRow :=
      ⟨env.newId, monitorId, status, compactMessage, ping, env.now⟩
    let st1 := { st with rows := st.rows ++ [record] }
    if env.updateOk = false then
      (st1, Except.error "记录监控状态失败")
    else
      ({ st1 with
          lastCheckAt := some env.now
          lastStatus := some status
          lastMessage := some message
          lastPing := ping }, Except.ok record)

/-! ## ICMP executor -/

/-- What the `ping` library reported for one probe: whether the host was
alive, the parsed response time (`none` for the library's `'unknown'`), and
the measured packet loss — which the library exposes but the source never
reads. -/
structure PingProbe where
  alive : Bool
  time : Option ℚ
  packetLoss : ℚ
deriving Repr, DecidableEq

/-- Outcome of the `ping.promise.probe` call. -/
inductive PingOutcome where
  | ok (r : PingProbe)
  | err (msg : String)
deriving Repr, DecidableEq

/-- `MonitorIcmpConfig` of the source. -/
structure MonitorIcmpConfig where
  hostname : String
  packetCount : ℕ := 4
  maxPacketLoss : Option ℚ := none
  maxResponseTime : Option ℚ := none
deriving Repr, DecidableEq

/-- JavaScript truthiness of an optional number (`undefined`, `null` and
`0` are falsy). -/
def numTruthy : Option ℚ → Bool
  | none => false
  | some q => q ≠ 0

/-- Embedding of `checkIcmp` (checker-icmp.ts lines 9-55, identical to
`checkIcmpSingle`): DOWN when the host does not reply; DOWN when
`maxResponseTime && pingTime && pingTime > maxResponseTime` (JS
truthiness); otherwise UP.  `config.maxPacketLoss` is destructured nowhere
and has no effect. -/
def checkIcmp (config : MonitorIcmpConfig) (probe : PingOutcome) : CheckRes :=
  match probe with
  | .err msg => ⟨0, "Ping执行错误: " ++ msg, none⟩
  | .ok r =>
    if r.alive = false then
      ⟨0, "目标不可达", none⟩
    else if numTruthy config.maxResponseTime ∧ numTruthy r.time ∧
        r.time.getD 0 > config.maxResponseTime.getD 0 then
      ⟨0, "响应时间(" ++ toString (r.time.getD 0) ++ "ms)超过阈值(" ++
        toString (config.maxResponseTime.getD 0) ++ "ms)", r.time⟩
    else if numTruthy r.time then
      ⟨1, "Ping正常: " ++ toString (r.time.getD 0) ++ "ms", r.time⟩
    else
      ⟨1, "Ping正常", r.time⟩

/-! ## Database and port executors -/

/-- `MonitorDatabaseConfig` of the source.  The port arrives from JSON as a
number (the string-typed case goes through `parseInt` in the source and is
not modelled). -/
structure MonitorDatabaseConfig where
  hostname : Option String := none
  port : Option ℤ := none
  username : Option String := none
  password : Option String := none
  database : Option String := none
  query : Option String := none
deriving Repr, DecidableEq

/-- Outcome of a database connect-and-query interaction. -/
inductive ConnOutcome where
  | ok (elapsedMs : ℚ)
  | connErr (msg : String) (elapsedMs : ℚ)
  | cmdErr (msg : String) (elapsedMs : ℚ)
deriving Repr, DecidableEq

/-- Modelled from the spec: `ERROR_MESSAGES.DATABASE_ERROR` lives in
`lib/monitors/types.ts`, which is not among the provided sources; the spec
only names the error class, so the literal text is a placeholder no theorem
depends on. -/
def DATABASE_ERROR_TEXT : String := "数据库连接失败"

/-- JS truthiness of `query && query.trim()`. -/
def queryTruthy : Option String → Bool
  | none => false
  | some q => q ≠ "" ∧ q.trim ≠ ""

/-- Embedding of `checkMysql` (checker-database.ts lines 86-152): validate
the port (`portNumber <= 0 || portNumber > 65535` → config-invalid DOWN
before any connection is opened), then connect and run the query or the
`SELECT 1` liveness check, reporting elapsed time as ping. -/
def checkMysql (config : MonitorDatabaseConfig) (conn : ConnOutcome) :
    CheckRes :=
  match config.port with
  | none => ⟨0, "配置无效: 端口号 undefined 不是有效的端口值", none⟩
  | some p =>
    if p ≤ 0 ∨ p > 65535 then
      ⟨0, "配置无效: 端口号 " ++ toString p ++ " 不是有效的端口值", none⟩
    else
      match conn with
      | .ok ms =>
        ⟨1, "数据库连接正常" ++
          (if queryTruthy config.query then ", 查询成功" else ""), some ms⟩
      | .connErr msg ms => ⟨0, DATABASE_ERROR_TEXT ++ ": " ++ msg, some ms⟩
      | .cmdErr msg ms => ⟨0, DATABASE_ERROR_TEXT ++ ": " ++ msg, some ms⟩

/-- Embedding of `checkRedis` (checker-database.ts lines 155-230): same
port validation; a failing user command yields the distinct
`"Redis命令执行失败: ..."` message, other connection errors the generic
database error. -/
def checkRedis (config : MonitorDatabaseConfig) (conn : ConnOutcome) :
    CheckRes :=
  match config.port with
  | none => ⟨0, "配置无效: 端口号 undefined 不是有效的端口值", none⟩
  | some p =>
    if p ≤ 0 ∨ p > 65535 then
      ⟨0, "配置无效: 端口号 " ++ toString p ++ " 不是有效的端口值", none⟩
    else
      match conn with
      | .ok ms =>
        ⟨1, "Redis连接正常" ++
          (if queryTruthy config.query then ", 命令执行成功" else ""), some ms⟩
      | .connErr msg ms => ⟨0, DATABASE_ERROR_TEXT ++ ": " ++ msg, some ms⟩
      | .cmdErr msg ms => ⟨0, "Redis命令执行失败: " ++ msg, some ms⟩

/-- Embedding of `checkDatabaseSingle` (checker-database.ts lines 6-45):
guard the presence of hostname and port, then dispatch on the type tag. -/
def checkDatabaseSingle (dbType : String) (config : MonitorDatabaseConfig)
    (conn : ConnOutcome) : CheckRes :=
  if config.hostname = none ∨ config.hostname = some "" then
    ⟨0, "配置无效: 缺少主机名", none⟩
  else if config.port = none then
    ⟨0, "配置无效: 缺少端口号", none⟩
  else if dbType = "mysql" then checkMysql config conn
  else if dbType = "redis" then checkRedis config conn
  else ⟨0, "不支持的数据库类型: " ++ dbType, none⟩

/-- `MonitorPortConfig` of the source. -/
structure MonitorPortConfig where
  hostname : String
  port : ℤ
deriving Repr, DecidableEq

/-- Outcome of the TCP socket interaction in `checkPortSingle`: the first
event the socket fires, or a synchronous throw out of `socket.connect`. -/
inductive SockOutcome where
  | connected (elapsedMs : ℚ)
  | timedOut (elapsedMs : ℚ)
  | refused (elapsedMs : ℚ)
  | errTimedOut (elapsedMs : ℚ)
  | notFound (elapsedMs : ℚ)
  | otherErr (msg : String) (elapsedMs : ℚ)
  | thrown (msg : String)
deriving Repr, DecidableEq

/-- Modelled from the spec: the `ERROR_MESSAGES` table of
`lib/monitors/types.ts` is not among the provided sources; the spec names
the classes CONNECTION_REFUSED / TIMEOUT / HOST_NOT_FOUND / NETWORK_ERROR /
unknown error.  No theorem depends on the literal texts. -/
def CONNECTION_REFUSED_TEXT : String := "连接被拒绝"

/-- Modelled from the spec: see `CONNECTION_REFUSED_TEXT`. -/
def TIMEOUT_TEXT : String := "连接超时"

/-- Modelled from the spec: see `CONNECTION_REFUSED_TEXT`. -/
def HOST_NOT_FOUND_TEXT : String := "主机未找到"

/-- Modelled from the spec: see `CONNECTION_REFUSED_TEXT`. -/
def NETWORK_ERROR_TEXT : String := "网络错误"

/-- Modelled from the spec: see `CONNECTION_REFUSED_TEXT`. -/
def UNKNOWN_ERROR_TEXT : String := "未知错误"

/-- Embedding of `checkPortSingle` (the port executor, bundled into
checker-database.ts at lines 238-306): no validation of the configured
port — the function goes straight to `socket.connect` and the result is
determined entirely by the socket outcome. -/
def checkPortSingle (_config : MonitorPortConfig) (sock : SockOutcome) :
    CheckRes :=
  match sock with
  | .connected ms => ⟨1, "端口开放", some ms⟩
  | .timedOut ms => ⟨0, TIMEOUT_TEXT, some ms⟩
  | .refused ms => ⟨0, CONNECTION_REFUSED_TEXT, some ms⟩
  | .errTimedOut ms => ⟨0, TIMEOUT_TEXT, some ms⟩
  | .notFound ms => ⟨0, HOST_NOT_FOUND_TEXT, some ms⟩
  | .otherErr msg ms => ⟨0, NETWORK_ERROR_TEXT ++ ": " ++ msg, some ms⟩
  | .thrown msg => ⟨0, UNKNOWN_ERROR_TEXT ++ ": " ++ msg, none⟩

/-! ## Notification decision engine -/

/-- A notification channel as seen through an enabled binding (the
`findUnique` query already filters `notificationBindings` on
`enabled: true`, so only the channel's own `enabled` flag remains to be
checked inside the dispatch loop). -/
structure ChannelRec where
  enabled : Bool
  name : String
  ctype : String
deriving Repr, DecidableEq

/-- The monitor fields the notification engine reads. -/
structure NMonitor where
  name : String
  mtype : String
  configUrl : Option String := none
  configHostname : Option String := none
  configPort : Option String := none
  resendInterval : ℕ := 0
  bindings : List ChannelRec := []
deriving Repr, DecidableEq

/-- A history row as the notification engine sees it. -/
structure NHistRow where
  status : ℕ
  timestamp : ℤ
deriving Repr, DecidableEq

/-- One entry of the in-memory `notificationCache`. -/
structure CacheEntry where
  time : ℤ
  status : ℕ
deriving Repr, DecidableEq

/-- The `NotificationData` payload handed to the channel dispatchers. -/
structure NotificationData where
  monitorName : String
  monitorType : String
  statusText : String
  statusCode : ℕ
  time : String
  message : String
  failureCount : Option ℕ := none
  firstFailureTime : Option String := none
  lastFailureTime : Option String := none
  failureDuration : Option ℤ := none
deriving Repr, DecidableEq

/-- The world one `sendStatusChangeNotifications` call runs against: the
monitor row with its enabled bindings (or `none` when the monitor is
missing), the monitor's full history in chronological (ascending-timestamp,
append) order, the process-local cache entry for this monitor, the clock,
the rendered forms `formatDateTime` produces, failure switches for each
repository query (a `true` switch makes that `await` throw), and the
per-binding dispatch outcomes. -/
structure NotifyEnv where
  monitor : Option NMonitor
  history : List NHistRow
  cache : Option CacheEntry
  now : ℤ
  fmtNow : String
  fmtAt : ℤ → String
  failFind : Bool := false
  failCount : Bool := false
  failLastSuccess : Bool := false
  failTotalFailures : Bool := false
  failFirstFailure : Bool := false
  dispatchOk : ℕ → Bool := fun _ => true

/-- What one call observably did: the dispatch attempts in order (channel
and payload), the attempts that succeeded, and the cache entry left
behind. -/
structure NotifyResult where
  attempted : List (ChannelRec × NotificationData)
  delivered : List ChannelRec
  cache : Option CacheEntry
deriving Repr

/-- `STATUS_TEXT_CN[status] || '未知'`. -/
def statusTextCN (status : ℕ) : String :=
  if status = 0 then "异常"
  else if status = 1 then "正常"
  else if status = 2 then "等待"
  else "未知"

/-- JS truthiness of an optional string (`undefined`, `null` and `""` are
falsy). -/
def strTruthy : Option String → Option String
  | none => none
  | some s => if s = "" then none else some s

/-- Count of history rows matching a predicate — the embedding of the
`prisma.monitorStatus.count` queries. -/
def countRows (rows : List NHistRow) (p : NHistRow → Prop) [DecidablePred p] :
    ℕ :=
  (rows.filter (fun r => decide (p r))).length

/-- The dispatch loop (`for (const binding of monitor.notificationBindings)`
with a per-channel try/catch): disabled channels are skipped, every enabled
channel is attempted, and a failing dispatch (`dispatchOk i = false` for the
i-th binding) is caught and logged without stopping the loop. -/
def dispatchLoop (ok : ℕ → Bool) (data : NotificationData) :
    List ChannelRec → ℕ → List (ChannelRec × NotificationData) × List ChannelRec
  | [], _ => ([], [])
  | ch :: rest, i =>
    let tail := dispatchLoop ok data rest (i + 1)
    if ch.enabled then
      ((ch, data) :: tail.1, if ok i then ch :: tail.2 else tail.2)
    else
      tail

/-- The `"监控地址: ..."` line prepended from `config.url` or
`config.hostname[:port]` (JS truthiness on each field), over the
`message || '无详细信息'` base. -/
def buildFullMessage (monitor : NMonitor) (message : String) : String :=
  let baseMessage := if message = "" then "无详细信息" else message
  match strTruthy monitor.configUrl with
  | some u => "监控地址: " ++ u ++ "\n" ++ baseMessage
  | none =>
    match strTruthy monitor.configHostname with
    | some h =>
      let address :=
        match strTruthy monitor.configPort with
        | some p => h ++ ":" ++ p
        | none => h
      "监控地址: " ++ address ++ "\n" ++ baseMessage
    | none => baseMessage

/-- The base `NotificationData` assembled before branching. -/
def buildData (env : NotifyEnv) (monitor : NMonitor) (status : ℕ)
    (message : String) : NotificationData :=
  { monitorName := monitor.name
    monitorType := monitor.mtype
    statusText := statusTextCN status
    statusCode := status
    time := env.fmtNow
    message := buildFullMessage monitor message }

/-- `continuousFailureStartTime` of the DOWN branch: the timestamp of the
most recent UP history row, or epoch 0 (`new Date(0)`) when none exists. -/
def continuousFailureStart (history : List NHistRow) : ℤ :=
  match (history.filter (fun r => r.status = 1)).getLast? with
  | some r => r.timestamp
  | none => 0

/-- The DOWN rows strictly after the continuous-failure start. -/
def failuresAfterStart (history : List NHistRow) : List NHistRow :=
  history.filter (fun r =>
    decide (r.status = 0 ∧ continuousFailureStart history < r.timestamp))

/-- The aggregated DOWN payload (notification-service.ts lines 199-250):
total failure count, first failure, duration in whole minutes, and the
`"连续失败 N 次，首次失败于 T，持续 D 分钟"` line prepended to the
message. -/
def aggregatedFailureData (env : NotifyEnv) (d : NotificationData) :
    NotificationData :=
  let totalFailures := (failuresAfterStart env.history).length
  let firstContinuousFailure := (failuresAfterStart env.history).head?
  let duration : ℤ :=
    match firstContinuousFailure with
    | some r => Int.fdiv (env.now - r.timestamp) 60000
    | none => 0
  let firstStr :=
    match firstContinuousFailure with
    | some r => env.fmtAt r.timestamp
    | none => "未知"
  { d with
      failureCount := some totalFailures
      firstFailureTime := some firstStr
      lastFailureTime := some env.fmtNow
      failureDuration := some duration
      message := "连续失败 " ++ toString totalFailures ++
        " 次，首次失败于 " ++ firstStr ++ "，持续 " ++
        toString duration ++ " 分钟\n" ++ d.message }

/-- Absence of injected repository-query failures. -/
def noQueryFailures (env : NotifyEnv) : Prop :=
  env.failFind = false ∧ env.failCount = false ∧
    env.failLastSuccess = false ∧ env.failTotalFailures = false ∧
    env.failFirstFailure = false

/-- The resend throttle at the top of the DOWN branch
(notification-service.ts lines 171-197): with `resendInterval > 0` and a
DOWN `lastNotified` entry, count the DOWN rows strictly after the cached
time and block (`ok false`) below the threshold; with `resendInterval = 0`
and a DOWN entry, always block; otherwise pass. -/
def resendGate (env : NotifyEnv) (monitor : NMonitor) : Except Unit Bool :=
  if 0 < monitor.resendInterval then
    match env.cache with
    | some c =>
      if c.status = 0 then
        if env.failCount then Except.error ()
        else
          let failuresSinceLastNotification :=
            countRows env.history
              (fun r => r.status = 0 ∧ c.time < r.timestamp)
          if failuresSinceLastNotification < monitor.resendInterval then
            Except.ok false
          else Except.ok true
      else Except.ok true
    | none => Except.ok true
  else
    match env.cache with
    | some c => if c.status = 0 then Except.ok false else Except.ok true
    | none => Except.ok true

/-- The aggregated-DOWN branch of `sendStatusChangeNotifications`
(notification-service.ts lines 171-266), entered when `status === 0`: the
resend gate, then the aggregation queries, message construction, the
dispatch loop and the cache update. -/
def downBranch (env : NotifyEnv) (monitor : NMonitor)
    (notificationData : NotificationData) : Except Unit NotifyResult :=
  match resendGate env monitor with
  | Except.error e => Except.error e
  | Except.ok false => Except.ok ⟨[], [], env.cache⟩
  | Except.ok true =>
    if env.failLastSuccess ∨ env.failTotalFailures ∨ env.failFirstFailure then
      Except.error ()
    else
      let aggregatedData := aggregatedFailureData env notificationData
      let (att, del) :=
        dispatchLoop env.dispatchOk aggregatedData monitor.bindings 0
      Except.ok ⟨att, del, some ⟨env.now, 0⟩⟩

/-- The recovery duration (notification-service.ts lines 271-273): whole
minutes since the cached notification when that notification was DOWN,
otherwise 0. -/
def recoverDurationOf (env : NotifyEnv) : ℤ :=
  match env.cache with
  | some c =>
    if c.status = 0 then Int.fdiv (env.now - c.time) 60000 else 0
  | none => 0

/-- The recovery branch (notification-service.ts lines 267-295), entered
when `status === 1 && realPrevStatus === 0 && !isNewMonitor`.  Note the
source includes the `"故障持续了约 D 分钟。"` phrase only when the computed
duration is positive. -/
def upBranch (env : NotifyEnv) (monitor : NMonitor)
    (notificationData : NotificationData) : NotifyResult :=
  let recoverDuration : ℤ := recoverDurationOf env
  let recoveryData :=
    { notificationData with
        message := "监控已恢复正常。" ++
          (if 0 < recoverDuration then
            "故障持续了约 " ++ toString recoverDuration ++ " 分钟。"
          else "") ++ "\n" ++ notificationData.message }
  let (att, del) := dispatchLoop env.dispatchOk recoveryData monitor.bindings 0
  ⟨att, del, some ⟨env.now, 1⟩⟩

/-- The fall-through branch (notification-service.ts lines 296-312): plain
notification, cache updated with the new status. -/
def otherBranch (env : NotifyEnv) (monitor : NMonitor) (status : ℕ)
    (notificationData : NotificationData) : NotifyResult :=
  let (att, del) :=
    dispatchLoop env.dispatchOk notificationData monitor.bindings 0
  ⟨att, del, some ⟨env.now, status⟩⟩

/-- The resolved previous status (notification-service.ts lines 112-122):
the caller-supplied `prevStatus` when non-null, otherwise — for a monitor
that is not newly created — the status of the second-most-recent history
row. -/
def realPrevStatusOf (env : NotifyEnv) (prevStatus : Option ℕ) : Option ℕ :=
  let statusHistory := env.history.reverse.take 2
  let isNewMonitor := statusHistory.length ≤ 1
  match prevStatus with
  | some p => some p
  | none =>
    if ¬isNewMonitor ∧ 1 < statusHistory.length then
      (statusHistory.get? 1).map (fun r => r.status)
    else none

/-- The body of `sendStatusChangeNotifications` inside its outer `try`
(notification-service.ts lines 82-312): load the monitor with bindings and
the two most recent history rows, resolve the real previous status, apply
the no-transition and new-monitor guards, build the base message with the
`"监控地址: ..."` line, and branch on the new status.  Errors of the
repository queries propagate as `Except.error`. -/
def sendCore (env : NotifyEnv) (status : ℕ) (message : String)
    (prevStatus : Option ℕ) : Except Unit NotifyResult :=
  if env.failFind then Except.error ()
  else
    match env.monitor with
    | none => Except.ok ⟨[], [], env.cache⟩
    | some monitor =>
      if monitor.bindings = [] then Except.ok ⟨[], [], env.cache⟩
      else
        let isNewMonitor := (env.history.reverse.take 2).length ≤ 1
        let realPrevStatus := realPrevStatusOf env prevStatus
        if prevStatus ≠ none ∧ realPrevStatus = some status then
          Except.ok ⟨[], [], env.cache⟩
        else if isNewMonitor ∧ status = 1 then
          Except.ok ⟨[], [], env.cache⟩
        else
          let notificationData := buildData env monitor status message
          if status = 0 then
            downBranch env monitor notificationData
          else if status = 1 ∧ realPrevStatus = some 0 ∧ ¬isNewMonitor then
            Except.ok (upBranch env monitor notificationData)
          else
            Except.ok (otherBranch env monitor status notificationData)

/-- Embedding of the exported `sendStatusChangeNotifications`: the whole
body runs inside `try { ... } catch { console.error(...) }`, so any error
of `sendCore` is swallowed and the call finishes normally with no dispatch
and an unchanged cache. -/
def sendStatusChangeNotifications (env : NotifyEnv) (status : ℕ)
    (message : String) (prevStatus : Option ℕ) : Except Unit NotifyResult :=
  match sendCore env status message prevStatus with
  | Except.ok r => Except.ok r
  | Except.error _ => Except.ok ⟨[], [], env.cache⟩

/-- The `NotifyResult` a call settles on (total by the outer catch). -/
def notifyRun (env : NotifyEnv) (status : ℕ) (message : String)
    (prevStatus : Option ℕ) : NotifyResult :=
  match sendCore env status message prevStatus with
  | Except.ok r => r
  | Except.error _ => ⟨[], [], env.cache⟩

/-! ## Ultra-compact ID generator

IDs are modelled as lists of characters.  The JS float arithmetic
(`relativeTime / (THREE_YEARS_MS / 36 ** k)`) is idealized as exact rational
arithmetic; `new Date(x)` truncates its non-negative fractional argument to
whole milliseconds, which the embedding renders as the rational floor. -/

/-- The 36-character alphabet of the generator. -/
def BASE36_CHARS : String := "0123456789abcdefghijklmnopqrstuvwxyz"

/-- The character for one base-36 digit (`toString(36)` digit alphabet). -/
def base36Char (d : ℕ) : Char := BASE36_CHARS.data.getD d '?'

/-- The numeric value `parseInt(-, 36)` assigns to one digit character. -/
def charVal36 (c : Char) : ℕ := BASE36_CHARS.data.indexOf c

/-- Membership in the `[0-9a-z]` character class of `isUltraCompactId`. -/
def isBase36Digit (c : Char) : Bool := BASE36_CHARS.data.contains c

/-- The low `k` base-36 digits of `n`, most significant first — the digit
list of `n.toString(36).padStart(k, '0')` whenever `n < 36 ^ k`. -/
def padDigits : ℕ → ℕ → List ℕ
  | 0, _ => []
  | k + 1, n => padDigits k (n / 36) ++ [n % 36]

/-- `n.toString(36).padStart(k, '0')` as a character list (for
`n < 36 ^ k`). -/
def toBase36Padded (k n : ℕ) : List Char := (padDigits k n).map base36Char

/-- `parseInt(s, 36)` on a digit-character list. -/
def parseBase36 (cs : List Char) : ℕ :=
  cs.foldl (fun a c => a * 36 + charVal36 c) 0

/-- `new Date('2024-01-01T00:00:00Z').getTime()`. -/
def BASE_TIME : ℤ := 1704067200000

/-- `3 * 365 * 24 * 60 * 60 * 1000`. -/
def THREE_YEARS_MS : ℕ := 3 * 365 * 24 * 60 * 60 * 1000

/-- `Math.floor(relativeTime / (THREE_YEARS_MS / 36 ** k))` in exact
arithmetic: the time bucket a relative time falls in. -/
def timeUnitFor (k rel : ℕ) : ℕ := rel * 36 ^ k / THREE_YEARS_MS

/-- Embedding of `generateUltraCompactId7`: a 4-character time prefix over
the 3-year window plus 3 random characters.  `rel` is `now - BASE_TIME` in
milliseconds (the source throws outside `[0, THREE_YEARS_MS]`, rendered as
`none`; negative values cannot arise for `rel : ℕ`); `rand < 36 ^ 3` is the
drawn random number. -/
def generateUltraCompactId7 (rel rand : ℕ) : Option (List Char) :=
  if THREE_YEARS_MS < rel then none
  else some (toBase36Padded 4 (timeUnitFor 4 rel) ++ toBase36Padded 3 rand)

/-- Embedding of `generateUltraCompactId8`: 5 time characters, 2 random
characters, and a checksum character derived from the time unit and the
char codes of the random characters. -/
def generateUltraCompactId8 (rel rand : ℕ) : Option (List Char) :=
  if THREE_YEARS_MS < rel then none
  else
    let timeUnit := timeUnitFor 5 rel
    let randomChars := toBase36Padded 2 rand
    let checksum :=
      (timeUnit + (randomChars.map Char.toNat).sum) % 36
    some (toBase36Padded 5 timeUnit ++ randomChars ++ [base36Char checksum])

/-- Embedding of `generateUltraCompactId9`: 6 time characters plus 3 random
characters. -/
def generateUltraCompactId9 (rel rand : ℕ) : Option (List Char) :=
  if THREE_YEARS_MS < rel then none
  else some (toBase36Padded 6 (timeUnitFor 6 rel) ++ toBase36Padded 3 rand)

/-- Embedding of `extractTimeFromUltraCompactId`: validate with the
`^[0-9a-z]{6,9}$` regex, split off the time prefix (3 fewer characters than
the ID), and rebuild `BASE_TIME + timeUnit * (THREE_YEARS_MS / 36 ** k)`;
`new Date` truncates the reconstructed (non-negative) epoch value to whole
milliseconds. -/
def extractTimeFromUltraCompactId (id : List Char) : Option ℤ :=
  if 6 ≤ id.length ∧ id.length ≤ 9 ∧ id.all isBase36Digit then
    some ⌊(BASE_TIME : ℚ) +
      (parseBase36 (id.take (id.length - 3)) : ℚ) *
        ((THREE_YEARS_MS : ℚ) / ((36 : ℚ) ^ (id.length - 3)))⌋
  else none

/-! ## Concrete instances used by counterexamples and witnesses -/

/-- A monitor with one enabled webhook binding and `resendInterval = 2`. -/
def envResendMonitor : NMonitor :=
  { name := "m"
    mtype := "http"
    resendInterval := 2
    bindings := [⟨true, "ch", "Webhook"⟩] }

/-- A persistent-DOWN environment: three DOWN rows, the cached (DOWN)
notification at time 15, so two DOWN rows lie strictly after it. -/
def envResendDown : NotifyEnv :=
  { monitor := some envResendMonitor
    history := [⟨0, 10⟩, ⟨0, 20⟩, ⟨0, 30⟩]
    cache := some ⟨15, 0⟩
    now := 1000000
    fmtNow := "t"
    fmtAt := fun _ => "ts" }

/-- Like `envResendMonitor` with `resendInterval = 1`. -/
def envResendMonitor1 : NMonitor :=
  { name := "m"
    mtype := "http"
    resendInterval := 1
    bindings := [⟨true, "ch", "Webhook"⟩] }

/-- One DOWN row after the cached notification time. -/
def envResendDown1 : NotifyEnv :=
  { monitor := some envResendMonitor1
    history := [⟨0, 20⟩]
    cache := some ⟨10, 0⟩
    now := 1000000
    fmtNow := "t"
    fmtAt := fun _ => "ts" }

/-- A monitor with one enabled binding and no resend throttling. -/
def envPlainMonitor : NMonitor :=
  { name := "m"
    mtype := "http"
    bindings := [⟨true, "ch", "Webhook"⟩] }

/-- A recovery environment: two DOWN rows (so the monitor is not new), the
cached DOWN notification 30 seconds before `now`, so the recovery duration
floors to 0 minutes. -/
def envRecoverShort : NotifyEnv :=
  { monitor := some envPlainMonitor
    history := [⟨0, 10⟩, ⟨0, 20⟩]
    cache := some ⟨70000, 0⟩
    now := 100000
    fmtNow := "t"
    fmtAt := fun _ => "ts" }

/-- An aggregation environment: an UP row then two DOWN rows, cache empty,
`now` 150 seconds after the first DOWN row. -/
def envAggregate : NotifyEnv :=
  { monitor := some envPlainMonitor
    history := [⟨1, 10000⟩, ⟨0, 20000⟩, ⟨0, 80000⟩]
    cache := none
    now := 170000
    fmtNow := "t"
    fmtAt := fun ts => "T" ++ toString ts }

/-- An environment whose monitor row is missing. -/
def envNoMonitor : NotifyEnv :=
  { monitor := none
    history := []
    cache := none
    now := 0
    fmtNow := ""
    fmtAt := fun _ => "" }

/-! ## Helper lemmas -/

lemma executeMonitorCheck_zero (attempts : ℕ → CheckRes) (ri : ℕ) :
    executeMonitorCheck attempts ⟨0, ri⟩ =
      (attempts 0, [RetryEvent.attemptEv 0]) := by
  rw [executeMonitorCheck]
  simp

lemma retryLoop_done (attempts : ℕ → CheckRes) (cfg : RetryCfg)
    (first : CheckRes) (i : ℕ) (h : ¬i < cfg.retries) :
    retryLoop attempts cfg first i =
      ({ first with
          message := "重试" ++ toString cfg.retries ++ "次后仍然失败: " ++
            first.message }, []) := by
  rw [retryLoop]
  simp [h]

lemma retryLoop_step_success (attempts : ℕ → CheckRes) (cfg : RetryCfg)
    (first : CheckRes) (i : ℕ) (h : i < cfg.retries)
    (hup : (attempts (i + 1)).status = 1) :
    retryLoop attempts cfg first i =
      ({ attempts (i + 1) with
          message := "重试成功 (" ++ toString (i + 1) ++ "/" ++
            toString cfg.retries ++ "): " ++ (attempts (i + 1)).message },
        [RetryEvent.sleepEv cfg.retryInterval,
          RetryEvent.attemptEv (i + 1)]) := by
  rw [retryLoop]
  simp [h, executeMonitorCheck_zero, hup]

lemma retryLoop_step_fail (attempts : ℕ → CheckRes) (cfg : RetryCfg)
    (first : CheckRes) (i : ℕ) (h : i < cfg.retries)
    (hdown : (attempts (i + 1)).status ≠ 1) :
    retryLoop attempts cfg first i =
      ((retryLoop attempts cfg first (i + 1)).1,
        RetryEvent.sleepEv cfg.retryInterval ::
          RetryEvent.attemptEv (i + 1) ::
          (retryLoop attempts cfg first (i + 1)).2) := by
  conv_lhs => rw [retryLoop]
  simp [h, executeMonitorCheck_zero, hdown]

lemma retryLoop_first_up (attempts : ℕ → CheckRes) (cfg : RetryCfg)
    (first : CheckRes) :
    ∀ n i k, cfg.retries - i = n → i < k → k ≤ cfg.retries →
      (attempts k).status = 1 →
      (∀ j, i < j → j < k → (attempts j).status ≠ 1) →
      retryLoop attempts cfg first i =
        ({ attempts k with
            message := "重试成功 (" ++ toString k ++ "/" ++
              toString cfg.retries ++ "): " ++ (attempts k).message },
          (List.range' (i + 1) (k - i)).flatMap
            (fun j => [RetryEvent.sleepEv cfg.retryInterval,
              RetryEvent.attemptEv j])) := by
  intro n
  induction n with
  | zero =>
    intro i k hn hik hkN _ _
    omega
  | succ m ih =>
    intro i k hn hik hkN hup hmid
    have hi : i < cfg.retries := lt_of_lt_of_le hik hkN
    by_cases hk : k = i + 1
    · subst hk
      rw [retryLoop_step_success attempts cfg first i hi hup]
      have : i + 1 - i = 1 := by omega
      simp [this, List.range']
    · have hik' : i + 1 < k := by omega
      have hne : (attempts (i + 1)).status ≠ 1 :=
        hmid (i + 1) (by omega) hik'
      rw [retryLoop_step_fail attempts cfg first i hi hne,
        ih (i + 1) k (by omega) hik' hkN hup
          (fun j hj1 hj2 => hmid j (by omega) hj2)]
      have hr : k - i = (k - (i + 1)) + 1 := by omega
      rw [hr, List.range'_succ]
      simp

lemma retryLoop_all_fail (attempts : ℕ → CheckRes) (cfg : RetryCfg)
    (first : CheckRes) :
    ∀ n i, cfg.retries - i = n → i ≤ cfg.retries →
      (∀ j, i < j → j ≤ cfg.retries → (attempts j).status ≠ 1) →
      retryLoop attempts cfg first i =
        ({ first with
            message := "重试" ++ toString cfg.retries ++ "次后仍然失败: " ++
              first.message },
          (List.range' (i + 1) (cfg.retries - i)).flatMap
            (fun j => [RetryEvent.sleepEv cfg.retryInterval,
              RetryEvent.attemptEv j])) := by
  intro n
  induction n with
  | zero =>
    intro i hn hile _
    have : ¬i < cfg.retries := by omega
    rw [retryLoop_done attempts cfg first i this]
    have h0 : cfg.retries - i = 0 := by omega
    simp [h0]
  | succ m ih =>
    intro i hn hile hall
    have hi : i < cfg.retries := by omega
    have hne : (attempts (i + 1)).status ≠ 1 :=
      hall (i + 1) (by omega) (by omega)
    rw [retryLoop_step_fail attempts cfg first i hi hne,
      ih (i + 1) (by omega) (by omega)
        (fun j hj1 hj2 => hall j (by omega) hj2)]
    have hr : cfg.retries - i = (cfg.retries - (i + 1)) + 1 := by omega
    rw [hr, List.range'_succ]
    simp

lemma executeMonitorCheck_const_fail (res : CheckRes) (hres : res.status = 0)
    (N ri : ℕ) (hN : 0 < N) :
    executeMonitorCheck (fun _ => res) ⟨N, ri⟩ =
      ({ res with message := "重试" ++ toString N ++ "次后仍然失败: " ++
          res.message },
        RetryEvent.attemptEv 0 ::
          (List.range' 1 N).flatMap
            (fun j => [RetryEvent.sleepEv ri, RetryEvent.attemptEv j])) := by
  rw [executeMonitorCheck]
  simp only [hres, hN, and_self, dif_pos, true_and]
  rw [retryLoop_all_fail (fun _ => res) ⟨N, ri⟩ res (N - 0) 0 rfl (by omega)
    (fun j _ _ => by simp [hres])]
  simp
  exact hres

lemma dispatchLoop_attempted (ok : ℕ → Bool) (data : NotificationData)
    (l : List ChannelRec) (i : ℕ) :
    (dispatchLoop ok data l i).1 =
      (l.filter (fun ch => ch.enabled)).map (fun ch => (ch, data)) := by
  induction l generalizing i with
  | nil => rfl
  | cons ch rest ih =>
    by_cases h : ch.enabled
    · simp [dispatchLoop, h, ih (i + 1)]
    · simp [dispatchLoop, h, ih (i + 1)]

lemma getLast?_mem_hist (l : List NHistRow) (u : NHistRow)
    (hu : l.getLast? = some u) : u ∈ l := by
  induction l with
  | nil => cases hu
  | cons a t ih =>
    cases t with
    | nil =>
      simp only [List.getLast?_singleton, Option.some_inj] at hu
      simp [hu]
    | cons b t' =>
      rw [List.getLast?_cons_cons] at hu
      exact List.mem_cons_of_mem a (ih hu)

lemma pairwise_head_min (l : List NHistRow)
    (hs : l.Pairwise (fun a b => a.timestamp ≤ b.timestamp)) (f : NHistRow)
    (hf : l.head? = some f) : ∀ g ∈ l, f.timestamp ≤ g.timestamp := by
  cases l with
  | nil => cases hf
  | cons a t =>
    simp only [List.head?_cons, Option.some_inj] at hf
    subst hf
    intro g hg
    rcases List.mem_cons.mp hg with hga | hgt
    · subst hga
      exact le_refl _
    · exact (List.pairwise_cons.mp hs).1 g hgt

lemma pairwise_getLast_max (l : List NHistRow)
    (hs : l.Pairwise (fun a b => a.timestamp ≤ b.timestamp)) (u : NHistRow)
    (hu : l.getLast? = some u) : ∀ v ∈ l, v.timestamp ≤ u.timestamp := by
  induction l with
  | nil => cases hu
  | cons a t ih =>
    cases t with
    | nil =>
      simp only [List.getLast?_singleton, Option.some_inj] at hu
      subst hu
      intro v hv
      rcases List.mem_cons.mp hv with h | h
      · subst h
        exact le_refl _
      · cases h
    | cons b t' =>
      rw [List.getLast?_cons_cons] at hu
      intro v hv
      rcases List.mem_cons.mp hv with h | h
      · subst h
        exact (List.pairwise_cons.mp hs).1 u
          (getLast?_mem_hist (b :: t') u hu)
      · exact ih (List.pairwise_cons.mp hs).2 hu v h

lemma sendCore_down_route (env : NotifyEnv) (m : NMonitor) (message : String)
    (prevStatus : Option ℕ) (hm : env.monitor = some m)
    (hb : m.bindings ≠ []) (hff : env.failFind = false)
    (hprev : prevStatus ≠ some 0) :
    sendCore env 0 message prevStatus =
      downBranch env m (buildData env m 0 message) := by
  cases prevStatus with
  | none => simp [sendCore, hm, hb, hff]
  | some p =>
    have hp : p ≠ 0 := fun h => hprev (by rw [h])
    simp [sendCore, realPrevStatusOf, hm, hb, hff, hp]

lemma sendCore_guard_noop (env : NotifyEnv) (message : String)
    (hff : env.failFind = false) :
    sendCore env 0 message (some 0) = Except.ok ⟨[], [], env.cache⟩ := by
  cases hmon : env.monitor with
  | none => simp [sendCore, hff, hmon]
  | some m =>
    by_cases hb : m.bindings = []
    · simp [sendCore, hff, hmon, hb]
    · simp [sendCore, realPrevStatusOf, hff, hmon, hb]

lemma downBranch_resend_pass (env : NotifyEnv) (m : NMonitor)
    (d : NotificationData) (c : CacheEntry) (hc : env.cache = some c)
    (hc0 : c.status = 0) (hr : 0 < m.resendInterval)
    (hfc : env.failCount = false)
    (hcnt : m.resendInterval ≤
      countRows env.history (fun r => r.status = 0 ∧ c.time < r.timestamp))
    (hf1 : env.failLastSuccess = false) (hf2 : env.failTotalFailures = false)
    (hf3 : env.failFirstFailure = false) :
    downBranch env m d = Except.ok
      ⟨(m.bindings.filter (fun ch => ch.enabled)).map
          (fun ch => (ch, aggregatedFailureData env d)),
        (dispatchLoop env.dispatchOk (aggregatedFailureData env d)
          m.bindings 0).2,
        some ⟨env.now, 0⟩⟩ := by
  have hg : resendGate env m = Except.ok true := by
    unfold resendGate
    simp [hc, hc0, hr, hfc, not_lt.mpr hcnt]
  unfold downBranch
  rw [hg]
  simp [hf1, hf2, hf3, dispatchLoop_attempted]

lemma downBranch_resend_block (env : NotifyEnv) (m : NMonitor)
    (d : NotificationData) (c : CacheEntry) (hc : env.cache = some c)
    (hc0 : c.status = 0) (hr : 0 < m.resendInterval)
    (hfc : env.failCount = false)
    (hcnt : countRows env.history
      (fun r => r.status = 0 ∧ c.time < r.timestamp) < m.resendInterval) :
    downBranch env m d = Except.ok ⟨[], [], env.cache⟩ := by
  have hg : resendGate env m = Except.ok false := by
    unfold resendGate
    simp [hc, hc0, hr, hfc, hcnt]
  unfold downBranch
  rw [hg]

lemma downBranch_zero_block (env : NotifyEnv) (m : NMonitor)
    (d : NotificationData) (c : CacheEntry) (hc : env.cache = some c)
    (hc0 : c.status = 0) (hr : m.resendInterval = 0) :
    downBranch env m d = Except.ok ⟨[], [], env.cache⟩ := by
  have hg : resendGate env m = Except.ok false := by
    unfold resendGate
    simp [hc, hc0, hr]
  unfold downBranch
  rw [hg]

lemma downBranch_total (env : NotifyEnv) (m : NMonitor)
    (d : NotificationData) :
    downBranch env m d = Except.error () ∨
    downBranch env m d = Except.ok ⟨[], [], env.cache⟩ ∨
    downBranch env m d = Except.ok
      ⟨(m.bindings.filter (fun ch => ch.enabled)).map
          (fun ch => (ch, aggregatedFailureData env d)),
        (dispatchLoop env.dispatchOk (aggregatedFailureData env d)
          m.bindings 0).2,
        some ⟨env.now, 0⟩⟩ := by
  unfold downBranch
  cases hg : resendGate env m with
  | error e =>
    left
    rfl
  | ok b =>
    cases b with
    | false =>
      right
      left
      rfl
    | true =>
      by_cases hfl : env.failLastSuccess = true ∨ env.failTotalFailures = true
          ∨ env.failFirstFailure = true
      · left
        simp [hfl]
      · right
        right
        simp only [if_neg hfl]
        simp [dispatchLoop_attempted]

lemma notifyRun_down_total (env : NotifyEnv) (message : String)
    (prevStatus : Option ℕ) :
    (notifyRun env 0 message prevStatus).attempted = [] ∨
    (∃ m, env.monitor = some m ∧
      notifyRun env 0 message prevStatus =
        ⟨(m.bindings.filter (fun ch => ch.enabled)).map
            (fun ch => (ch, aggregatedFailureData env
              (buildData env m 0 message))),
          (dispatchLoop env.dispatchOk
            (aggregatedFailureData env (buildData env m 0 message))
            m.bindings 0).2,
          some ⟨env.now, 0⟩⟩) := by
  by_cases hff : env.failFind = true
  · left
    simp [notifyRun, sendCore, hff]
  · have hff' : env.failFind = false := by
      simpa using hff
    cases hmon : env.monitor with
    | none =>
      left
      simp [notifyRun, sendCore, hff', hmon]
    | some m =>
      by_cases hb : m.bindings = []
      · left
        simp [notifyRun, sendCore, hff', hmon, hb]
      · by_cases hprev : prevStatus = some 0
        · left
          subst hprev
          simp [notifyRun, sendCore_guard_noop env message hff']
        · have hroute :=
            sendCore_down_route env m message prevStatus hmon hb hff' hprev
          rcases downBranch_total env m (buildData env m 0 message) with
            hdb | hdb | hdb
          · left
            simp [notifyRun, hroute, hdb]
          · left
            simp [notifyRun, hroute, hdb]
          · right
            exact ⟨m, rfl, by simp [notifyRun, hroute, hdb]⟩

lemma getLast?_eq_none_nil (l : List NHistRow) (h : l.getLast? = none) :
    l = [] := by
  cases l with
  | nil => rfl
  | cons a t =>
    cases t with
    | nil => cases h
    | cons b t' =>
      rw [List.getLast?_cons_cons] at h
      have := getLast?_eq_none_nil (b :: t') h
      cases this

lemma continuousFailureStart_spec (history : List NHistRow)
    (hsort : history.Pairwise (fun a b => a.timestamp ≤ b.timestamp)) :
    (∃ u ∈ history, u.status = 1 ∧
      continuousFailureStart history = u.timestamp ∧
      ∀ v ∈ history, v.status = 1 → v.timestamp ≤ u.timestamp) ∨
    (continuousFailureStart history = 0 ∧
      ∀ v ∈ history, v.status ≠ 1) := by
  cases hlast : (history.filter (fun r => r.status = 1)).getLast? with
  | none =>
    right
    have hnil := getLast?_eq_none_nil _ hlast
    constructor
    · simp [continuousFailureStart, hlast]
    · intro v hv hs1
      have hvf : v ∈ history.filter (fun r => r.status = 1) :=
        List.mem_filter.mpr ⟨hv, by simp [hs1]⟩
      rw [hnil] at hvf
      cases hvf
  | some u =>
    left
    have huf : u ∈ history.filter (fun r => r.status = 1) :=
      getLast?_mem_hist _ u hlast
    have hu_mem : u ∈ history := List.mem_of_mem_filter huf
    have hu_s : u.status = 1 := by
      have := List.of_mem_filter huf
      simpa using this
    refine ⟨u, hu_mem, hu_s, by simp [continuousFailureStart, hlast], ?_⟩
    intro v hv hv1
    have hvf : v ∈ history.filter (fun r => r.status = 1) :=
      List.mem_filter.mpr ⟨hv, by simp [hv1]⟩
    exact pairwise_getLast_max _
      (List.Pairwise.sublist (List.filter_sublist _) hsort) u hlast v hvf

lemma sendCore_up_route (env : NotifyEnv) (m : NMonitor) (message : String)
    (hm : env.monitor = some m) (hb : m.bindings ≠ [])
    (hff : env.failFind = false) (hlen : 2 ≤ env.history.length) :
    sendCore env 1 message (some 0) =
      Except.ok (upBranch env m (buildData env m 1 message)) := by
  have hlen2 : (env.history.reverse.take 2).length = 2 := by
    rw [List.length_take, List.length_reverse]
    omega
  have hnew : ¬(env.history.reverse.take 2).length ≤ 1 := by omega
  simp [sendCore, realPrevStatusOf, hm, hb, hff, hnew, hlen2]

lemma realPrevStatusOf_dispatch (env : NotifyEnv) (d : ℕ → Bool)
    (p : Option ℕ) :
    realPrevStatusOf { env with dispatchOk := d } p =
      realPrevStatusOf env p := rfl

lemma buildData_dispatch (env : NotifyEnv) (d : ℕ → Bool) (m : NMonitor)
    (s : ℕ) (msg : String) :
    buildData { env with dispatchOk := d } m s msg =
      buildData env m s msg := rfl

lemma resendGate_dispatch (env : NotifyEnv) (d : ℕ → Bool) (m : NMonitor) :
    resendGate { env with dispatchOk := d } m = resendGate env m := rfl

lemma aggregatedFailureData_dispatch (env : NotifyEnv) (d : ℕ → Bool)
    (x : NotificationData) :
    aggregatedFailureData { env with dispatchOk := d } x =
      aggregatedFailureData env x := rfl

lemma recoverDurationOf_dispatch (env : NotifyEnv) (d : ℕ → Bool) :
    recoverDurationOf { env with dispatchOk := d } =
      recoverDurationOf env := rfl

lemma downBranch_dispatch_cases (env : NotifyEnv) (d : ℕ → Bool)
    (m : NMonitor) (data : NotificationData) :
    (downBranch { env with dispatchOk := d } m data = Except.error () ∧
      downBranch env m data = Except.error ()) ∨
    (∃ r r', downBranch { env with dispatchOk := d } m data = Except.ok r ∧
      downBranch env m data = Except.ok r' ∧
      r.attempted = r'.attempted) := by
  unfold downBranch
  rw [resendGate_dispatch]
  cases hg : resendGate env m with
  | error e =>
    left
    exact ⟨rfl, rfl⟩
  | ok b =>
    cases b with
    | false =>
      right
      exact ⟨⟨[], [], env.cache⟩, ⟨[], [], env.cache⟩, by simp, by simp, rfl⟩
    | true =>
      by_cases hfl : env.failLastSuccess = true ∨ env.failTotalFailures = true
          ∨ env.failFirstFailure = true
      · left
        constructor
        · simp [hfl]
        · simp [hfl]
      · right
        refine ⟨⟨(dispatchLoop d (aggregatedFailureData env data)
              m.bindings 0).1,
            (dispatchLoop d (aggregatedFailureData env data) m.bindings 0).2,
            some ⟨env.now, 0⟩⟩,
          ⟨(dispatchLoop env.dispatchOk (aggregatedFailureData env data)
              m.bindings 0).1,
            (dispatchLoop env.dispatchOk (aggregatedFailureData env data)
              m.bindings 0).2,
            some ⟨env.now, 0⟩⟩, ?_, ?_, ?_⟩
        · simp [hfl, aggregatedFailureData_dispatch]
        · simp [hfl]
        · simp [dispatchLoop_attempted]

lemma sendCore_noop_monitor (env : NotifyEnv) (status : ℕ)
    (message : String) (prevStatus : Option ℕ)
    (hff : env.failFind = false) (hmon : env.monitor = none) :
    sendCore env status message prevStatus =
      Except.ok ⟨[], [], env.cache⟩ := by
  simp [sendCore, hff, hmon]

lemma sendCore_noop_bindings (env : NotifyEnv) (m : NMonitor) (status : ℕ)
    (message : String) (prevStatus : Option ℕ)
    (hff : env.failFind = false) (hmon : env.monitor = some m)
    (hb : m.bindings = []) :
    sendCore env status message prevStatus =
      Except.ok ⟨[], [], env.cache⟩ := by
  simp [sendCore, hff, hmon, hb]

lemma sendCore_noop_guard1 (env : NotifyEnv) (m : NMonitor) (status : ℕ)
    (message : String) (prevStatus : Option ℕ)
    (hff : env.failFind = false) (hmon : env.monitor = some m)
    (hg1 : prevStatus ≠ none ∧
      realPrevStatusOf env prevStatus = some status) :
    sendCore env status message prevStatus =
      Except.ok ⟨[], [], env.cache⟩ := by
  by_cases hb : m.bindings = []
  · simp [sendCore, hff, hmon, hb]
  · simp [sendCore, hff, hmon, hb, hg1.1, hg1.2]

lemma sendCore_noop_guard2 (env : NotifyEnv) (m : NMonitor) (status : ℕ)
    (message : String) (prevStatus : Option ℕ)
    (hff : env.failFind = false) (hmon : env.monitor = some m)
    (hg2 : (env.history.reverse.take 2).length ≤ 1 ∧ status = 1) :
    sendCore env status message prevStatus =
      Except.ok ⟨[], [], env.cache⟩ := by
  have hlen : env.history.length ≤ 1 := by
    have h := hg2.1
    rw [List.length_take, List.length_reverse] at h
    omega
  by_cases hb : m.bindings = []
  · simp [sendCore, hff, hmon, hb]
  · by_cases hg1 : prevStatus ≠ none ∧
        realPrevStatusOf env prevStatus = some status
    · simp [sendCore, hff, hmon, hb, hg1.1, hg1.2]
    · simp [sendCore, hff, hmon, hb, hg1, hg2.1, hg2.2]
      intro _ h2
      omega

lemma sendCore_route_general (env : NotifyEnv) (m : NMonitor) (status : ℕ)
    (message : String) (prevStatus : Option ℕ)
    (hmon : env.monitor = some m) (hb : m.bindings ≠ [])
    (hff : env.failFind = false)
    (hg1 : ¬(prevStatus ≠ none ∧
      realPrevStatusOf env prevStatus = some status))
    (hg2 : ¬((env.history.reverse.take 2).length ≤ 1 ∧ status = 1)) :
    sendCore env status message prevStatus =
      (if status = 0 then
        downBranch env m (buildData env m status message)
      else if status = 1 ∧ realPrevStatusOf env prevStatus = some 0 ∧
          ¬(env.history.reverse.take 2).length ≤ 1 then
        Except.ok (upBranch env m (buildData env m status message))
      else
        Except.ok (otherBranch env m status
          (buildData env m status message))) := by
  by_cases hA : (env.history.reverse.take 2).length ≤ 1
  · have hs1 : status ≠ 1 := fun h => hg2 ⟨hA, h⟩
    simp [sendCore, hmon, hb, hff, hg1, hA, hs1]
  · simp [sendCore, hmon, hb, hff, hg1, hA]
    intro h1' _
    exfalso
    rw [List.length_take, List.length_reverse] at hA
    omega

lemma upBranch_attempted_dispatch (env : NotifyEnv) (d : ℕ → Bool)
    (m : NMonitor) (data : NotificationData) :
    (upBranch { env with dispatchOk := d } m data).attempted =
      (upBranch env m data).attempted := by
  simp [upBranch, recoverDurationOf_dispatch, dispatchLoop_attempted]

lemma otherBranch_attempted_dispatch (env : NotifyEnv) (d : ℕ → Bool)
    (m : NMonitor) (status : ℕ) (data : NotificationData) :
    (otherBranch { env with dispatchOk := d } m status data).attempted =
      (otherBranch env m status data).attempted := by
  simp [otherBranch, dispatchLoop_attempted]

lemma length_padDigits (k n : ℕ) : (padDigits k n).length = k := by
  induction k generalizing n with
  | zero => rfl
  | succ m ih => simp [padDigits, ih]

lemma padDigits_lt (k n : ℕ) : ∀ d ∈ padDigits k n, d < 36 := by
  induction k generalizing n with
  | zero =>
    intro d hd
    cases hd
  | succ m ih =>
    intro d hd
    simp only [padDigits, List.mem_append, List.mem_singleton] at hd
    rcases hd with hd | hd
    · exact ih (n / 36) d hd
    · subst hd
      exact Nat.mod_lt _ (by omega)

lemma charVal36_base36Char : ∀ d, d < 36 → charVal36 (base36Char d) = d := by
  decide

lemma isBase36Digit_base36Char : ∀ d, d < 36 →
    isBase36Digit (base36Char d) = true := by
  decide

lemma parseBase36_aux (k : ℕ) :
    ∀ n a, n < 36 ^ k →
      ((padDigits k n).map base36Char).foldl
        (fun acc c => acc * 36 + charVal36 c) a = a * 36 ^ k + n := by
  induction k with
  | zero =>
    intro n a hn
    have : n = 0 := by omega
    subst this
    simp [padDigits]
  | succ m ih =>
    intro n a hn
    have hdiv : n / 36 < 36 ^ m := by
      rw [Nat.div_lt_iff_lt_mul (by omega : 0 < 36)]
      calc n < 36 ^ (m + 1) := hn
        _ = 36 ^ m * 36 := by ring
    simp only [padDigits, List.map_append, List.foldl_append, List.map_cons,
      List.map_nil, List.foldl_cons, List.foldl_nil]
    rw [ih (n / 36) a hdiv,
      charVal36_base36Char (n % 36) (Nat.mod_lt _ (by omega))]
    have : n % 36 + 36 * (n / 36) = n := Nat.mod_add_div n 36
    ring_nf
    omega

lemma parseBase36_toBase36Padded (k n : ℕ) (hn : n < 36 ^ k) :
    parseBase36 (toBase36Padded k n) = n := by
  unfold parseBase36 toBase36Padded
  rw [parseBase36_aux k n 0 hn]
  ring

lemma timeUnitFor_lt (k rel : ℕ) (hrel : rel < THREE_YEARS_MS) :
    timeUnitFor k rel < 36 ^ k := by
  unfold timeUnitFor
  rw [Nat.div_lt_iff_lt_mul (by unfold THREE_YEARS_MS; omega)]
  calc rel * 36 ^ k < THREE_YEARS_MS * 36 ^ k := by
        have h36 : 0 < 36 ^ k := Nat.pos_pow_of_pos k (by omega)
        exact (Nat.mul_lt_mul_right h36).mpr hrel
    _ = 36 ^ k * THREE_YEARS_MS := by ring

lemma extract_bucket_core (k rel : ℕ) (suffix : List Char)
    (hk3 : 3 ≤ k) (hk6 : k ≤ 6) (hrel : rel < THREE_YEARS_MS)
    (hsl : suffix.length = 3) (hsv : suffix.all isBase36Digit = true) :
    ∃ t', extractTimeFromUltraCompactId
        (toBase36Padded k (timeUnitFor k rel) ++ suffix) = some t' ∧
      t' ≤ BASE_TIME + rel ∧
      (BASE_TIME : ℚ) + rel <
        (t' : ℚ) + (THREE_YEARS_MS : ℚ) / 36 ^ k + 1 := by
  have hlen : (toBase36Padded k (timeUnitFor k rel) ++ suffix).length =
      k + 3 := by
    simp [toBase36Padded, length_padDigits, hsl]
  have hall : (toBase36Padded k (timeUnitFor k rel) ++ suffix).all
      isBase36Digit = true := by
    rw [List.all_append, Bool.and_eq_true]
    refine ⟨?_, hsv⟩
    rw [List.all_eq_true]
    intro c hc
    simp only [toBase36Padded, List.mem_map] at hc
    obtain ⟨d, hd, hcd⟩ := hc
    rw [← hcd]
    exact isBase36Digit_base36Char d (padDigits_lt k _ d hd)
  have hk33 : k + 3 - 3 = k := by omega
  have htake : (toBase36Padded k (timeUnitFor k rel) ++ suffix).take k =
      toBase36Padded k (timeUnitFor k rel) :=
    List.take_left' (by simp [toBase36Padded, length_padDigits])
  have hext : extractTimeFromUltraCompactId
      (toBase36Padded k (timeUnitFor k rel) ++ suffix) =
      some ⌊(BASE_TIME : ℚ) + (timeUnitFor k rel : ℚ) *
        ((THREE_YEARS_MS : ℚ) / (36 : ℚ) ^ k)⌋ := by
    unfold extractTimeFromUltraCompactId
    rw [if_pos (by rw [hlen]; exact ⟨by omega, by omega, hall⟩)]
    rw [hlen, hk33, htake,
      parseBase36_toBase36Padded k _ (timeUnitFor_lt k rel hrel)]
  set q := timeUnitFor k rel with hq
  have hq36 : (0 : ℚ) < (36 : ℚ) ^ k := by positivity
  have hH : (0 : ℚ) < (THREE_YEARS_MS : ℚ) := by
    unfold THREE_YEARS_MS
    norm_num
  have hlow : (q : ℚ) * THREE_YEARS_MS ≤ (rel : ℚ) * 36 ^ k := by
    have : q * THREE_YEARS_MS ≤ rel * 36 ^ k := by
      rw [hq]
      unfold timeUnitFor
      exact Nat.div_mul_le_self _ _
    exact_mod_cast this
  have hhigh : (rel : ℚ) * 36 ^ k < ((q : ℚ) + 1) * THREE_YEARS_MS := by
    have : rel * 36 ^ k < (q + 1) * THREE_YEARS_MS := by
      rw [hq]
      unfold timeUnitFor THREE_YEARS_MS
      have hdm := Nat.div_add_mod (rel * 36 ^ k) 94608000000
      have hmod : (rel * 36 ^ k) % 94608000000 < 94608000000 :=
        Nat.mod_lt _ (by omega)
      omega
    calc (rel : ℚ) * 36 ^ k < ((q + 1 : ℕ) : ℚ) * THREE_YEARS_MS := by
          exact_mod_cast this
      _ = ((q : ℚ) + 1) * THREE_YEARS_MS := by push_cast; ring
  refine ⟨_, hext, ?_, ?_⟩
  · have hfl : (⌊(BASE_TIME : ℚ) + (q : ℚ) *
        ((THREE_YEARS_MS : ℚ) / (36 : ℚ) ^ k)⌋ : ℚ) ≤
        (BASE_TIME : ℚ) + (q : ℚ) * ((THREE_YEARS_MS : ℚ) / (36 : ℚ) ^ k) :=
      Int.floor_le _
    have hqle : (q : ℚ) * ((THREE_YEARS_MS : ℚ) / (36 : ℚ) ^ k) ≤
        (rel : ℚ) := by
      rw [mul_div_assoc']
      rw [div_le_iff₀ hq36]
      exact hlow
    have : (⌊(BASE_TIME : ℚ) + (q : ℚ) *
        ((THREE_YEARS_MS : ℚ) / (36 : ℚ) ^ k)⌋ : ℚ) ≤
        (BASE_TIME : ℚ) + rel := le_trans hfl (by linarith)
    exact_mod_cast this
  · have hfl : (BASE_TIME : ℚ) + (q : ℚ) *
        ((THREE_YEARS_MS : ℚ) / (36 : ℚ) ^ k) <
        (⌊(BASE_TIME : ℚ) + (q : ℚ) *
          ((THREE_YEARS_MS : ℚ) / (36 : ℚ) ^ k)⌋ : ℚ) + 1 :=
      Int.lt_floor_add_one _
    have hrlt : (rel : ℚ) < ((q : ℚ) + 1) *
        ((THREE_YEARS_MS : ℚ) / (36 : ℚ) ^ k) := by
      rw [mul_div_assoc']
      rw [lt_div_iff₀ hq36]
      exact hhigh
    push_cast at hfl
    linarith

lemma toBase36Padded_all (k n : ℕ) :
    (toBase36Padded k n).all isBase36Digit = true := by
  rw [List.all_eq_true]
  intro c hc
  simp only [toBase36Padded, List.mem_map] at hc
  obtain ⟨d, hd, hcd⟩ := hc
  rw [← hcd]
  exact isBase36Digit_base36Char d (padDigits_lt k _ d hd)

/-! ## Claim theorems -/

/-- Claim C1 fails on the code: during a persistent DOWN run the scheduler
passes the previous status DOWN (spec §4.5), and then the no-transition
guard at notification-service.ts line 126 returns before the resend logic
is ever reached — here 2 DOWN rows lie strictly after `lastNotified.time`
and `resendInterval = 2`, yet nothing is emitted. -/
theorem sendStatusChange_resend_counterexample :
    ¬(((notifyRun envResendDown 0 "err" (some 0)).attempted ≠ []) ↔
      2 ≤ countRows envResendDown.history
        (fun r : NHistRow => r.status = 0 ∧ (15 : ℤ) < r.timestamp)) := by
  intro h
  have hL : (notifyRun envResendDown 0 "err" (some 0)).attempted = [] := rfl
  have hR : 2 ≤ countRows envResendDown.history
      (fun r : NHistRow => r.status = 0 ∧ (15 : ℤ) < r.timestamp) := by
    decide
  exact (h.mpr hR) hL

/-- Claim C1 amended: with a DOWN `lastNotified` entry, repeat DOWN
notifications are governed by the resend counter only when the call carries
`prevStatus = null` (the after-restart case): then with `resendInterval >
0` a repeat is emitted iff the number of DOWN rows strictly later than
`lastNotified.time` reaches `resendInterval`.  When the call carries
`prevStatus = DOWN` — the persistent-run case — the no-transition guard
suppresses every repeat regardless of the counter; and with `resendInterval
= 0` no repeat is emitted for any `prevStatus`, so a persistent failure
yields exactly one notification until recovery. -/
theorem sendStatusChange_resend_amended_spec (env : NotifyEnv)
    (m : NMonitor) (c : CacheEntry) (message : String)
    (hm : env.monitor = some m)
    (hen : m.bindings.filter (fun ch => ch.enabled) ≠ [])
    (hc : env.cache = some c) (hc0 : c.status = 0)
    (hnf : noQueryFailures env) :
    (0 < m.resendInterval →
      ((notifyRun env 0 message none).attempted ≠ [] ↔
        m.resendInterval ≤ countRows env.history
          (fun r => r.status = 0 ∧ c.time < r.timestamp)))
    ∧ ((notifyRun env 0 message (some 0)).attempted = [])
    ∧ (m.resendInterval = 0 → ∀ prevStatus,
        (notifyRun env 0 message prevStatus).attempted = []) := by
  obtain ⟨hff, hfc, hf1, hf2, hf3⟩ := hnf
  have hb : m.bindings ≠ [] := by
    intro hnil
    exact hen (by simp [hnil])
  refine ⟨?_, ?_, ?_⟩
  · intro hr
    have hroute := sendCore_down_route env m message none hm hb hff
      (by simp)
    constructor
    · intro hne
      by_contra hlt
      push_neg at hlt
      have hblock := downBranch_resend_block env m
        (buildData env m 0 message) c hc hc0 hr hfc hlt
      exact hne (by simp [notifyRun, hroute, hblock])
    · intro hcnt
      have hpass := downBranch_resend_pass env m
        (buildData env m 0 message) c hc hc0 hr hfc hcnt hf1 hf2 hf3
      simp [notifyRun, hroute, hpass, hen]
  · simp [notifyRun, sendCore_guard_noop env message hff]
  · intro hr prevStatus
    by_cases hprev : prevStatus = some 0
    · subst hprev
      simp [notifyRun, sendCore_guard_noop env message hff]
    · have hroute := sendCore_down_route env m message prevStatus hm hb hff
        hprev
      have hblock := downBranch_zero_block env m
        (buildData env m 0 message) c hc hc0 hr
      simp [notifyRun, hroute, hblock]

/-- Witness for C1 amended: after a restart (`prevStatus = null`), with
`resendInterval = 1` and one DOWN row after the cached notification time, a
repeat is emitted. -/
theorem sendStatusChange_resend_amended_spec_witness :
    (notifyRun envResendDown1 0 "err" none).attempted ≠ [] := by
  have h := (sendStatusChange_resend_amended_spec envResendDown1
    envResendMonitor1 ⟨10, 0⟩ "err" rfl (by decide) rfl rfl
    ⟨rfl, rfl, rfl, rfl, rfl⟩).1 (by decide)
  exact h.mpr (by decide)

/-- Claim C9 fails on the code by a sub-millisecond truncation: at the
generation instant 3 210 648 ms after the epoch, the 7-character ID decodes
to an extracted time t' with t' ≤ t, but `new Date` truncates the
fractionally reconstructed epoch value to whole milliseconds, and t lands
exactly one bucket or more past t': `t < t' + bucketDuration` fails. -/
theorem compactId_extraction_counterexample :
    ((generateUltraCompactId7 3210648 0).bind extractTimeFromUltraCompactId
      = some 1704070354320)
    ∧ ((1704070354320 : ℤ) ≤ BASE_TIME + 3210648)
    ∧ ¬((BASE_TIME : ℚ) + 3210648 <
        (1704070354320 : ℚ) + (THREE_YEARS_MS : ℚ) / (36 : ℚ) ^ 4) := by
  have hgen : generateUltraCompactId7 3210648 0 =
      some ['0', '0', '1', 'k', '0', '0', '0'] := by decide
  refine ⟨?_, by decide, ?_⟩
  · rw [hgen]
    rw [show (some ['0', '0', '1', 'k', '0', '0', '0']).bind
      extractTimeFromUltraCompactId =
      extractTimeFromUltraCompactId ['0', '0', '1', 'k', '0', '0', '0']
      from rfl]
    unfold extractTimeFromUltraCompactId
    rw [if_pos (by decide)]
    rw [show ((['0', '0', '1', 'k', '0', '0', '0'] :
      List Char).length - 3) = 4 from by decide]
    rw [show parseBase36 ((['0', '0', '1', 'k', '0', '0', '0'] :
      List Char).take 4) = 56 from by decide]
    rw [Option.some_inj]
    rw [show ((56 : ℕ) : ℚ) = 56 from by norm_num]
    norm_num [BASE_TIME, THREE_YEARS_MS]
  · norm_num [BASE_TIME, THREE_YEARS_MS]

/-- Claim C9 amended: for every generation instant strictly inside the
3-year horizon and every random draw, the time extracted from a 7-, 8- or
9-character compact ID satisfies `t' ≤ t < t' + bucketDuration + 1 ms`,
where `bucketDuration` is the horizon divided by 36 to the power of the
time-prefix length; the extra millisecond of slack is forced by `new Date`
truncating the fractionally reconstructed time. -/
theorem compactId_time_extraction_amended_spec (rel rand : ℕ)
    (hrel : rel < THREE_YEARS_MS) :
    (∃ id t', generateUltraCompactId7 rel rand = some id ∧
      extractTimeFromUltraCompactId id = some t' ∧
      t' ≤ BASE_TIME + rel ∧
      (BASE_TIME : ℚ) + rel <
        (t' : ℚ) + (THREE_YEARS_MS : ℚ) / (36 : ℚ) ^ 4 + 1)
    ∧ (∃ id t', generateUltraCompactId8 rel rand = some id ∧
        extractTimeFromUltraCompactId id = some t' ∧
        t' ≤ BASE_TIME + rel ∧
        (BASE_TIME : ℚ) + rel <
          (t' : ℚ) + (THREE_YEARS_MS : ℚ) / (36 : ℚ) ^ 5 + 1)
    ∧ (∃ id t', generateUltraCompactId9 rel rand = some id ∧
        extractTimeFromUltraCompactId id = some t' ∧
        t' ≤ BASE_TIME + rel ∧
        (BASE_TIME : ℚ) + rel <
          (t' : ℚ) + (THREE_YEARS_MS : ℚ) / (36 : ℚ) ^ 6 + 1) := by
  have hnot : ¬THREE_YEARS_MS < rel := by omega
  refine ⟨?_, ?_, ?_⟩
  · obtain ⟨t', hext, hle, hlt⟩ := extract_bucket_core 4 rel
      (toBase36Padded 3 rand) (by omega) (by omega) hrel
      (by simp [toBase36Padded, length_padDigits]) (toBase36Padded_all 3 rand)
    exact ⟨_, t', by simp [generateUltraCompactId7, hnot], hext, hle, hlt⟩
  · obtain ⟨t', hext, hle, hlt⟩ := extract_bucket_core 5 rel
      (toBase36Padded 2 rand ++ [base36Char ((timeUnitFor 5 rel +
        ((toBase36Padded 2 rand).map Char.toNat).sum) % 36)])
      (by omega) (by omega) hrel
      (by simp [toBase36Padded, length_padDigits])
      (by
        rw [List.all_append, Bool.and_eq_true]
        refine ⟨toBase36Padded_all 2 rand, ?_⟩
        simp only [List.all_cons, List.all_nil, Bool.and_true]
        exact isBase36Digit_base36Char _ (Nat.mod_lt _ (by omega)))
    refine ⟨_, t', ?_, hext, hle, hlt⟩
    simp [generateUltraCompactId8, hnot, List.append_assoc]
  · obtain ⟨t', hext, hle, hlt⟩ := extract_bucket_core 6 rel
      (toBase36Padded 3 rand) (by omega) (by omega) hrel
      (by simp [toBase36Padded, length_padDigits]) (toBase36Padded_all 3 rand)
    exact ⟨_, t', by simp [generateUltraCompactId9, hnot], hext, hle, hlt⟩

/-- Witness for C9 amended: a concrete 7-character ID generated 123 456 ms
after the epoch. -/
theorem compactId_time_extraction_amended_spec_witness :
    ∃ id t', generateUltraCompactId7 123456 777 = some id ∧
      extractTimeFromUltraCompactId id = some t' ∧
      t' ≤ BASE_TIME + 123456 ∧
      (BASE_TIME : ℚ) + 123456 <
        (t' : ℚ) + (THREE_YEARS_MS : ℚ) / (36 : ℚ) ^ 4 + 1 :=
  (compactId_time_extraction_amended_spec 123456 777 (by decide)).1

/-- Claim C10: the notification entry point never throws — the outer
try/catch turns every internal error (missing monitor, any repository-query
failure) into a normal return — and the list of channels to which dispatch
is attempted does not depend on the per-channel dispatch outcomes, so one
channel's failure never prevents the attempts on the remaining enabled
channels; a missing monitor is absorbed into a no-dispatch return. -/
theorem sendStatusChangeNotifications_total_spec (env : NotifyEnv)
    (status : ℕ) (message : String) (prevStatus : Option ℕ) :
    (∃ r, sendStatusChangeNotifications env status message prevStatus =
      Except.ok r)
    ∧ (∀ d, (notifyRun { env with dispatchOk := d } status message
        prevStatus).attempted =
        (notifyRun env status message prevStatus).attempted)
    ∧ (env.monitor = none → env.failFind = false →
        notifyRun env status message prevStatus = ⟨[], [], env.cache⟩) := by
  refine ⟨?_, ?_, ?_⟩
  · unfold sendStatusChangeNotifications
    cases sendCore env status message prevStatus with
    | ok r => exact ⟨r, rfl⟩
    | error e => exact ⟨⟨[], [], env.cache⟩, rfl⟩
  · intro d
    by_cases hff : env.failFind = true
    · have h1 : sendCore { env with dispatchOk := d } status message
          prevStatus = Except.error () := by
        unfold sendCore
        rw [if_pos (show ({ env with dispatchOk := d } :
          NotifyEnv).failFind = true from hff)]
      have h2 : sendCore env status message prevStatus =
          Except.error () := by
        unfold sendCore
        rw [if_pos hff]
      simp [notifyRun, h1, h2]
    · have hff' : env.failFind = false := by simpa using hff
      have hffd : ({ env with dispatchOk := d } : NotifyEnv).failFind =
        false := hff'
      by_cases hm0 : env.monitor = none
      · have h1 := sendCore_noop_monitor { env with dispatchOk := d }
          status message prevStatus hffd hm0
        have h2 := sendCore_noop_monitor env status message prevStatus
          hff' hm0
        simp [notifyRun, h1, h2]
      · obtain ⟨m, hmon⟩ : ∃ m, env.monitor = some m := by
          cases hx : env.monitor with
          | none => exact absurd hx hm0
          | some m => exact ⟨m, rfl⟩
        have hmond : ({ env with dispatchOk := d } : NotifyEnv).monitor =
          some m := hmon
        by_cases hb : m.bindings = []
        · have h1 := sendCore_noop_bindings { env with dispatchOk := d } m
            status message prevStatus hffd hmond hb
          have h2 := sendCore_noop_bindings env m status message prevStatus
            hff' hmon hb
          simp [notifyRun, h1, h2]
        · by_cases hg1 : prevStatus ≠ none ∧
              realPrevStatusOf env prevStatus = some status
          · have hg1d : prevStatus ≠ none ∧ realPrevStatusOf
                { env with dispatchOk := d } prevStatus = some status := hg1
            have h1 := sendCore_noop_guard1 { env with dispatchOk := d } m
              status message prevStatus hffd hmond hg1d
            have h2 := sendCore_noop_guard1 env m status message prevStatus
              hff' hmon hg1
            simp [notifyRun, h1, h2]
          · by_cases hg2 : (env.history.reverse.take 2).length ≤ 1 ∧
                status = 1
            · have hg2d : (({ env with dispatchOk := d } :
                  NotifyEnv).history.reverse.take 2).length ≤ 1 ∧
                  status = 1 := hg2
              have h1 := sendCore_noop_guard2 { env with dispatchOk := d }
                m status message prevStatus hffd hmond hg2d
              have h2 := sendCore_noop_guard2 env m status message
                prevStatus hff' hmon hg2
              simp [notifyRun, h1, h2]
            · have hg1d : ¬(prevStatus ≠ none ∧ realPrevStatusOf
                  { env with dispatchOk := d } prevStatus =
                    some status) := hg1
              have hg2d : ¬((({ env with dispatchOk := d } :
                  NotifyEnv).history.reverse.take 2).length ≤ 1 ∧
                  status = 1) := hg2
              have h1 := sendCore_route_general
                { env with dispatchOk := d } m status message prevStatus
                hmond hb hffd hg1d hg2d
              have h2 := sendCore_route_general env m status message
                prevStatus hmon hb hff' hg1 hg2
              rw [buildData_dispatch] at h1
              by_cases hs0 : status = 0
              · rw [if_pos hs0] at h1 h2
                rcases downBranch_dispatch_cases env d m
                    (buildData env m status message) with ⟨he1, he2⟩ |
                  ⟨r, r', hr1, hr2, hatt⟩
                · simp [notifyRun, h1, h2, he1, he2]
                · simp [notifyRun, h1, h2, hr1, hr2, hatt]
              · rw [if_neg hs0] at h1 h2
                by_cases hs1 : status = 1 ∧
                    realPrevStatusOf env prevStatus = some 0 ∧
                    ¬(env.history.reverse.take 2).length ≤ 1
                · have hs1d : status = 1 ∧ realPrevStatusOf
                      { env with dispatchOk := d } prevStatus = some 0 ∧
                      ¬(({ env with dispatchOk := d } :
                        NotifyEnv).history.reverse.take 2).length ≤ 1 := hs1
                  rw [if_pos hs1d] at h1
                  rw [if_pos hs1] at h2
                  simp [notifyRun, h1, h2, upBranch_attempted_dispatch]
                · have hs1d : ¬(status = 1 ∧ realPrevStatusOf
                      { env with dispatchOk := d } prevStatus = some 0 ∧
                      ¬(({ env with dispatchOk := d } :
                        NotifyEnv).history.reverse.take 2).length ≤ 1) := hs1
                  rw [if_neg hs1d] at h1
                  rw [if_neg hs1] at h2
                  simp [notifyRun, h1, h2, otherBranch_attempted_dispatch]
  · intro hmon hff
    simp [notifyRun, sendCore, hff, hmon]

/-- Witness for C10: with the monitor row missing the call settles on the
no-dispatch result. -/
theorem sendStatusChangeNotifications_total_spec_witness :
    notifyRun envNoMonitor 0 "x" none = ⟨[], [], none⟩ := by
  exact (sendStatusChangeNotifications_total_spec envNoMonitor 0 "x"
    none).2.2 rfl rfl

/-- Claim C5: whenever the engine emits a DOWN notification, the
continuous-failure start is the timestamp of the most recent UP history row
(epoch 0 if none); `failureCount` counts the DOWN rows strictly after that
point; `firstFailureTime` renders the earliest such DOWN row, whose
timestamp also yields `failureDuration` as floored minutes before `now`;
the line `"连续失败 N 次，首次失败于 T，持续 D 分钟"` is prepended to the
message; and `lastNotified` becomes `(now, DOWN)`. -/
theorem aggregated_down_spec (env : NotifyEnv) (message : String)
    (prevStatus : Option ℕ)
    (hsort : env.history.Pairwise (fun a b => a.timestamp ≤ b.timestamp))
    (hex : failuresAfterStart env.history ≠ [])
    (hemit : (notifyRun env 0 message prevStatus).attempted ≠ []) :
    ((notifyRun env 0 message prevStatus).cache = some ⟨env.now, 0⟩)
    ∧ ((∃ u ∈ env.history, u.status = 1 ∧
          continuousFailureStart env.history = u.timestamp ∧
          ∀ v ∈ env.history, v.status = 1 → v.timestamp ≤ u.timestamp) ∨
        (continuousFailureStart env.history = 0 ∧
          ∀ v ∈ env.history, v.status ≠ 1))
    ∧ (∃ f, (failuresAfterStart env.history).head? = some f ∧
        f ∈ env.history ∧ f.status = 0 ∧
        continuousFailureStart env.history < f.timestamp ∧
        (∀ g ∈ env.history, g.status = 0 →
          continuousFailureStart env.history < g.timestamp →
          f.timestamp ≤ g.timestamp) ∧
        (∀ x ∈ (notifyRun env 0 message prevStatus).attempted,
          x.2.failureCount = some (failuresAfterStart env.history).length ∧
          x.2.firstFailureTime = some (env.fmtAt f.timestamp) ∧
          x.2.lastFailureTime = some env.fmtNow ∧
          x.2.failureDuration =
            some (Int.fdiv (env.now - f.timestamp) 60000) ∧
          ∃ rest, x.2.message = "连续失败 " ++
            toString (failuresAfterStart env.history).length ++
            " 次，首次失败于 " ++ env.fmtAt f.timestamp ++ "，持续 " ++
            toString (Int.fdiv (env.now - f.timestamp) 60000) ++
            " 分钟\n" ++ rest)) := by
  rcases notifyRun_down_total env message prevStatus with hnone | ⟨m, hm, hrun⟩
  · exact absurd hnone hemit
  · obtain ⟨f, t, hft⟩ : ∃ f t, failuresAfterStart env.history = f :: t := by
      cases hfa : failuresAfterStart env.history with
      | nil => exact absurd hfa hex
      | cons a t => exact ⟨a, t, rfl⟩
    have hhead : (failuresAfterStart env.history).head? = some f := by
      rw [hft]
      rfl
    have hfmem_f : f ∈ failuresAfterStart env.history := by
      rw [hft]
      exact List.mem_cons_self f t
    have hfmem : f ∈ env.history := List.mem_of_mem_filter hfmem_f
    have hfprop : f.status = 0 ∧
        continuousFailureStart env.history < f.timestamp := by
      have := List.of_mem_filter hfmem_f
      simpa using this
    refine ⟨by rw [hrun], continuousFailureStart_spec env.history hsort,
      f, hhead, hfmem, hfprop.1, hfprop.2, ?_, ?_⟩
    · intro g hg hg0 hgt
      have hgf : g ∈ failuresAfterStart env.history :=
        List.mem_filter.mpr ⟨hg, by simp [hg0, hgt]⟩
      exact pairwise_head_min _
        (List.Pairwise.sublist (List.filter_sublist _) hsort) f hhead g hgf
    · intro x hx
      rw [hrun] at hx
      simp only [NotifyResult.attempted] at hx
      rw [List.mem_map] at hx
      obtain ⟨ch, _, hxeq⟩ := hx
      rw [← hxeq]
      simp [aggregatedFailureData, hhead]

/-- Witness for C5 at a concrete input: an UP row then two DOWN rows with
an empty cache; the aggregated notification carries count 2 and updates the
cache to `(now, DOWN)`. -/
theorem aggregated_down_spec_witness :
    (notifyRun envAggregate 0 "超时" (some 1)).cache =
      some ⟨170000, 0⟩ := by
  exact (aggregated_down_spec envAggregate "超时" (some 1) (by decide)
    (by decide) (by decide)).1

/-- Claim C6 fails on the code: for a sub-minute outage the computed
duration is 0 and the source omits the duration phrase entirely
(`recoverDuration > 0 ? ... : ''`), so the recovery message is
`"监控已恢复正常。"` with no `"持续了约 0 分钟"` text. -/
theorem recovery_message_counterexample :
    ((notifyRun envRecoverShort 1 "" (some 0)).attempted.map
        (fun x => x.2.message) = ["监控已恢复正常。\n无详细信息"])
    ∧ ("监控已恢复正常。\n无详细信息" ≠
        "监控已恢复正常。故障持续了约 0 分钟。" ++ "\n无详细信息") := by
  exact ⟨rfl, by decide⟩

/-- Claim C6 amended: on a recovery (new status UP, previous status DOWN,
monitor not new) a notification is emitted to every enabled channel and the
cache becomes `(now, UP)`; the duration D is the floored minute count since
`lastNotified.time` when `lastNotified.status = DOWN` and 0 otherwise, and
the message prefix is `"监控已恢复正常。故障持续了约 D 分钟。"` when D > 0
but just `"监控已恢复正常。"` — without any duration phrase — when D = 0
(in particular for sub-minute outages). -/
theorem recovery_message_amended_spec (env : NotifyEnv) (m : NMonitor)
    (message : String) (hm : env.monitor = some m)
    (hen : m.bindings.filter (fun ch => ch.enabled) ≠ [])
    (hff : env.failFind = false) (hlen : 2 ≤ env.history.length) :
    ((notifyRun env 1 message (some 0)).attempted ≠ [])
    ∧ ((notifyRun env 1 message (some 0)).cache = some ⟨env.now, 1⟩)
    ∧ (∀ x ∈ (notifyRun env 1 message (some 0)).attempted,
        x.2.message = "监控已恢复正常。" ++
          (if 0 < recoverDurationOf env then
            "故障持续了约 " ++ toString (recoverDurationOf env) ++ " 分钟。"
          else "") ++ "\n" ++ buildFullMessage m message)
    ∧ (∀ c, env.cache = some c → c.status = 0 →
        recoverDurationOf env = Int.fdiv (env.now - c.time) 60000)
    ∧ ((∀ c, env.cache = some c → c.status ≠ 0) →
        recoverDurationOf env = 0) := by
  have hb : m.bindings ≠ [] := by
    intro hnil
    exact hen (by simp [hnil])
  have hroute := sendCore_up_route env m message hm hb hff hlen
  have hrun : notifyRun env 1 message (some 0) =
      upBranch env m (buildData env m 1 message) := by
    simp [notifyRun, hroute]
  refine ⟨?_, ?_, ?_, ?_, ?_⟩
  · rw [hrun]
    simp [upBranch, dispatchLoop_attempted, hen]
  · rw [hrun]
    rfl
  · intro x hx
    rw [hrun] at hx
    simp [upBranch, dispatchLoop_attempted] at hx
    obtain ⟨ch, hch, hxeq⟩ := hx
    rw [← hxeq]
    simp [buildData]
  · intro c hc hc0
    simp [recoverDurationOf, hc, hc0]
  · intro hnot
    cases hcache : env.cache with
    | none => simp [recoverDurationOf, hcache]
    | some c =>
      have := hnot c hcache
      simp [recoverDurationOf, hcache, this]

/-- Witness for C6 amended: a sub-minute recovery emits a notification. -/
theorem recovery_message_amended_spec_witness :
    (notifyRun envRecoverShort 1 "" (some 0)).attempted ≠ [] := by
  exact (recovery_message_amended_spec envRecoverShort envPlainMonitor ""
    rfl (by decide) rfl (by decide)).1

/-- Claim C2: with `retries = N > 0` and an initial DOWN, the wrapper makes
up to N further attempts, sleeping `retryInterval` seconds before each and
running every inner invocation with `retries = 0` (a single oracle draw per
retry); the first UP at attempt k yields the UP result with message
`"重试成功 (k/N): <UP msg>"`, all-DOWN retries yield the first DOWN result
with message `"重试N次后仍然失败: <DOWN msg>"`, and `retries = 0` makes
exactly one attempt. -/
theorem executeMonitorCheck_retry_spec (attempts : ℕ → CheckRes)
    (N ri : ℕ) :
    (executeMonitorCheck attempts ⟨0, ri⟩ =
      (attempts 0, [RetryEvent.attemptEv 0]))
    ∧ (∀ k, (attempts 0).status = 0 → 0 < N → 1 ≤ k → k ≤ N →
        (attempts k).status = 1 →
        (∀ j, 1 ≤ j → j < k → (attempts j).status ≠ 1) →
        executeMonitorCheck attempts ⟨N, ri⟩ =
          ({ attempts k with
              message := "重试成功 (" ++ toString k ++ "/" ++ toString N ++
                "): " ++ (attempts k).message },
            RetryEvent.attemptEv 0 ::
              (List.range' 1 k).flatMap
                (fun j => [RetryEvent.sleepEv ri, RetryEvent.attemptEv j])))
    ∧ ((attempts 0).status = 0 → 0 < N →
        (∀ j, 1 ≤ j → j ≤ N → (attempts j).status = 0) →
        executeMonitorCheck attempts ⟨N, ri⟩ =
          ({ attempts 0 with
              message := "重试" ++ toString N ++ "次后仍然失败: " ++
                (attempts 0).message },
            RetryEvent.attemptEv 0 ::
              (List.range' 1 N).flatMap
                (fun j => [RetryEvent.sleepEv ri, RetryEvent.attemptEv j]))) := by
  refine ⟨executeMonitorCheck_zero attempts ri, ?_, ?_⟩
  · intro k h0 hN hk1 hkN hup hmid
    rw [executeMonitorCheck]
    simp only [h0, hN, and_self, dif_pos, true_and]
    rw [retryLoop_first_up attempts ⟨N, ri⟩ (attempts 0) (N - 0) 0 k rfl
      (by omega) hkN hup (fun j hj1 hj2 => hmid j hj1 hj2)]
    simp
  · intro h0 hN hall
    rw [executeMonitorCheck]
    simp only [h0, hN, and_self, dif_pos, true_and]
    rw [retryLoop_all_fail attempts ⟨N, ri⟩ (attempts 0) (N - 0) 0 rfl
      (by omega) (fun j hj1 hj2 => by
        rw [hall j hj1 hj2]
        simp)]
    simp
    exact h0

/-- Witness for C2 at a concrete input: two retries, the second succeeds. -/
theorem executeMonitorCheck_retry_spec_witness :
    executeMonitorCheck
      (fun n => if n = 0 then ⟨0, "连接被拒绝", none⟩
        else if n = 1 then ⟨0, "连接被拒绝", none⟩
        else ⟨1, "端口开放", none⟩) ⟨2, 7⟩ =
      (⟨1, "重试成功 (2/2): 端口开放", none⟩,
        [RetryEvent.attemptEv 0, RetryEvent.sleepEv 7, RetryEvent.attemptEv 1,
          RetryEvent.sleepEv 7, RetryEvent.attemptEv 2]) := by
  have h := (executeMonitorCheck_retry_spec
    (fun n => if n = 0 then ⟨0, "连接被拒绝", none⟩
      else if n = 1 then ⟨0, "连接被拒绝", none⟩
      else ⟨1, "端口开放", none⟩) 2 7).2.1 2
    (by decide) (by decide) (by decide) (by decide) (by decide)
    (fun j hj1 hj2 => by
      interval_cases j
      decide)
  rw [h]
  rfl

/-- Claim C3 fails on the code: `recordMonitorStatus` issues the history
insert and the monitor update as two separate database calls with no
transaction, so when the update fails after a successful insert the
monitor's `lastStatus` (still 1 from before) disagrees with the status of
the new most recent history row (0). -/
theorem recordMonitorStatus_counterexample :
    ((recordMonitorStatus ⟨true, false, 200, "aaaa00001"⟩
        ⟨[⟨"id0", "m1", 1, none, none, 100⟩], some 100, some 1, some "ok",
          none⟩ "m1" 0 "连接被拒绝" none (some "http")).1.lastStatus
      = some 1)
    ∧ (((recordMonitorStatus ⟨true, false, 200, "aaaa00001"⟩
        ⟨[⟨"id0", "m1", 1, none, none, 100⟩], some 100, some 1, some "ok",
          none⟩ "m1" 0 "连接被拒绝" none (some "http")).1.rows.getLast?).map
        HistRow.status = some 0)
    ∧ some (1 : ℕ) ≠ some 0 := by
  refine ⟨rfl, rfl, by decide⟩

/-- Claim C3 amended: the recorder inserts the history row and then updates
the monitor's last-known fields in two separate operations (no
transaction).  When both operations succeed, `lastStatus` equals the status
of the new most recent history row; when the insert fails nothing changes;
when the update fails after the insert, the inserted row remains while the
last-known fields are left stale, and the error propagates. -/
theorem recordMonitorStatus_amended_spec (env : RecordEnv) (st : MonState)
    (monitorId : String) (status : ℕ) (message : String) (ping : Option ℚ)
    (mt : Option String) :
    (env.insertOk = true → env.updateOk = true →
      (recordMonitorStatus env st monitorId status message ping mt).1 =
        { rows := st.rows ++ [⟨env.newId, monitorId, status,
            generateCompactMessage status message ping, ping, env.now⟩]
          lastCheckAt := some env.now
          lastStatus := some status
          lastMessage := some message
          lastPing := ping } ∧
      ((recordMonitorStatus env st monitorId status message ping
          mt).1.rows.getLast?).map HistRow.status = some status ∧
      (recordMonitorStatus env st monitorId status message ping
        mt).1.lastStatus = some status)
    ∧ (env.insertOk = false →
        recordMonitorStatus env st monitorId status message ping mt =
          (st, Except.error "记录监控状态失败"))
    ∧ (env.insertOk = true → env.updateOk = false →
        (recordMonitorStatus env st monitorId status message ping mt).1 =
          { st with rows := st.rows ++ [⟨env.newId, monitorId, status,
              generateCompactMessage status message ping, ping, env.now⟩] } ∧
        (recordMonitorStatus env st monitorId status message ping
          mt).1.lastStatus = st.lastStatus ∧
        (recordMonitorStatus env st monitorId status message ping mt).2 =
          Except.error "记录监控状态失败") := by
  refine ⟨?_, ?_, ?_⟩
  · intro hins hupd
    simp [recordMonitorStatus, hins, hupd]
  · intro hins
    simp [recordMonitorStatus, hins]
  · intro hins hupd
    simp [recordMonitorStatus, hins, hupd]

/-- Witness for C3 amended: a successful record of a DOWN probe. -/
theorem recordMonitorStatus_amended_spec_witness :
    (recordMonitorStatus ⟨true, true, 200, "aaaa00001"⟩ ⟨[], none, none,
        none, none⟩ "m1" 0 "连接被拒绝" none (some "port")).1.lastStatus =
      some 0 := by
  exact ((recordMonitorStatus_amended_spec ⟨true, true, 200, "aaaa00001"⟩
    ⟨[], none, none, none, none⟩ "m1" 0 "连接被拒绝" none
    (some "port")).1 rfl rfl).2.2

/-- Claim C4 fails on the code: `generateCompactMessage` never looks at the
monitor type, so an UP check of a push monitor also stores `null` (the
claim requires the original message there); the recorder inherits this. -/
theorem generateCompactMessage_counterexample :
    ((recordMonitorStatus ⟨true, true, 200, "aaaa00001"⟩
        ⟨[], none, none, none, none⟩ "m1" 1 "推送正常" none
        (some "push")).1.rows.map HistRow.message = [none])
    ∧ (none : Option String) ≠ some "推送正常" := by
  refine ⟨rfl, by decide⟩

/-- Claim C4 amended: the stored message is `null` iff `status = UP`,
regardless of the monitor type; DOWN rows keep the original message
unmodified (no trailing-whitespace trimming), PENDING rows store the
literal `"等待中"`, and any other status keeps the original message.  The
recorder stores exactly this value in the inserted row. -/
theorem generateCompactMessage_amended_spec (status : ℕ) (message : String)
    (ping : Option ℚ) :
    ((generateCompactMessage status message ping = none) ↔ status = 1)
    ∧ (status = 0 → generateCompactMessage status message ping = some message)
    ∧ (status = 2 →
        generateCompactMessage status message ping = some "等待中")
    ∧ (status ≠ 0 → status ≠ 1 → status ≠ 2 →
        generateCompactMessage status message ping = some message)
    ∧ (∀ env st monitorId mt, env.insertOk = true →
        ((recordMonitorStatus env st monitorId status message ping
            mt).1.rows.getLast?).map HistRow.message =
          some (generateCompactMessage status message ping)) := by
  refine ⟨?_, ?_, ?_, ?_, ?_⟩
  · constructor
    · intro h
      by_contra hne
      rw [generateCompactMessage, if_neg hne] at h
      by_cases h0 : status = 0
      · rw [if_pos h0] at h
        exact Option.noConfusion h
      · rw [if_neg h0] at h
        by_cases h2 : status = 2
        · rw [if_pos h2] at h
          exact Option.noConfusion h
        · rw [if_neg h2] at h
          exact Option.noConfusion h
    · intro h
      simp [generateCompactMessage, h]
  · intro h
    simp [generateCompactMessage, h]
  · intro h
    simp [generateCompactMessage, h]
  · intro h0 h1 h2
    simp [generateCompactMessage, h0, h1, h2]
  · intro env st monitorId mt hins
    by_cases hupd : env.updateOk = true
    · simp [recordMonitorStatus, hins, hupd]
    · simp only [Bool.not_eq_true] at hupd
      simp [recordMonitorStatus, hins, hupd]

/-- Witness for C4 amended: a DOWN row keeps its message verbatim,
including trailing whitespace. -/
theorem generateCompactMessage_amended_spec_witness :
    generateCompactMessage 0 "连接被拒绝 " none = some "连接被拒绝 " := by
  exact (generateCompactMessage_amended_spec 0 "连接被拒绝 " none).2.1 rfl

/-- Claim C7 fails on the code: `checkIcmp` never reads `maxPacketLoss`,
so a host that replies with 80 % measured loss under a configured
`maxPacketLoss` of 0 % is still reported UP. -/
theorem checkIcmp_counterexample :
    ((checkIcmp ⟨"example.com", 4, some 0, none⟩
        (PingOutcome.ok ⟨true, some 100, 80⟩)).status = 1)
    ∧ ¬((80 : ℚ) ≤ 0) := by
  exact ⟨rfl, by norm_num⟩

/-- Claim C7 amended: an ICMP check is UP iff the host replies and it is
not the case that `maxResponseTime` is set (and nonzero), the measured time
is known (and nonzero), and the time exceeds the threshold; the measured
packet loss and the `maxPacketLoss` setting are never consulted, and a
throwing probe is DOWN. -/
theorem checkIcmp_amended_spec (config : MonitorIcmpConfig) (r : PingProbe) :
    ((checkIcmp config (PingOutcome.ok r)).status = 1 ↔
      (r.alive = true ∧
        ¬(numTruthy config.maxResponseTime = true ∧ numTruthy r.time = true ∧
          r.time.getD 0 > config.maxResponseTime.getD 0)))
    ∧ (∀ x, checkIcmp { config with maxPacketLoss := x }
        (PingOutcome.ok r) = checkIcmp config (PingOutcome.ok r))
    ∧ (∀ loss, checkIcmp config (PingOutcome.ok { r with packetLoss := loss })
        = checkIcmp config (PingOutcome.ok r))
    ∧ (∀ msg, (checkIcmp config (PingOutcome.err msg)).status = 0) := by
  refine ⟨?_, ?_, ?_, ?_⟩
  · by_cases ha : r.alive = false
    · simp [checkIcmp, ha]
    · have ha' : r.alive = true := by
        revert ha
        cases r.alive
        · simp
        · simp
      by_cases hc : numTruthy config.maxResponseTime = true ∧
          numTruthy r.time = true ∧
          r.time.getD 0 > config.maxResponseTime.getD 0
      · simp [checkIcmp, ha', hc]
      · by_cases ht : numTruthy r.time = true
        · have hc' : ¬(numTruthy config.maxResponseTime = true ∧
              config.maxResponseTime.getD 0 < r.time.getD 0) :=
            fun hx => hc ⟨hx.1, ht, hx.2⟩
          simp [checkIcmp, ha', ht, hc']
        · simp [checkIcmp, ha', hc, ht]
  · intro x
    by_cases ha : r.alive = false
    · simp [checkIcmp, ha]
    · by_cases hc : numTruthy config.maxResponseTime = true ∧
          numTruthy r.time = true ∧
          r.time.getD 0 > config.maxResponseTime.getD 0
      · simp [checkIcmp, ha, hc]
      · simp [checkIcmp, ha, hc]
  · intro loss
    by_cases ha : r.alive = false
    · simp [checkIcmp, ha]
    · by_cases hc : numTruthy config.maxResponseTime = true ∧
          numTruthy r.time = true ∧
          r.time.getD 0 > config.maxResponseTime.getD 0
      · simp [checkIcmp, ha, hc]
      · simp [checkIcmp, ha, hc]
  · intro msg
    rfl

/-- Claim C8 fails on the code: a mysql monitor configured with port 70000
and `retries = 1` does get retried (the scheduler wrapper sleeps and
re-attempts, rewriting the message), and the port executor has no range
validation at all — with the connect outcome it reports UP even for port
70000. -/
theorem portValidation_counterexample :
    ((executeMonitorCheck
        (fun _ => checkMysql { port := some 70000 } (ConnOutcome.ok 5))
        ⟨1, 60⟩).1.message =
      "重试1次后仍然失败: 配置无效: 端口号 70000 不是有效的端口值")
    ∧ ((executeMonitorCheck
        (fun _ => checkMysql { port := some 70000 } (ConnOutcome.ok 5))
        ⟨1, 60⟩).2 ≠ [RetryEvent.attemptEv 0])
    ∧ (checkPortSingle ⟨"example.com", 70000⟩ (SockOutcome.connected 5) =
        ⟨1, "端口开放", some 5⟩) := by
  have h := executeMonitorCheck_const_fail
    (checkMysql { port := some 70000 } (ConnOutcome.ok 5)) rfl 1 60
    (by omega)
  refine ⟨?_, ?_, rfl⟩
  · rw [h]
    rfl
  · rw [h]
    simp

/-- Claim C8 amended: the mysql and redis executors reject a configured
port outside 1–65535 with the config-invalid message before any connection
work (the result does not depend on the connection outcome); the port
executor performs no such validation (a successful connect yields UP even
for an out-of-range port); and a config-invalid DOWN is retried by the
scheduler wrapper like any other DOWN, its message being rewritten to
`"重试N次后仍然失败: 配置无效: ..."`. -/
theorem portValidation_amended_spec (p : ℤ) (hp : p ≤ 0 ∨ p > 65535) :
    (∀ cfg : MonitorDatabaseConfig, cfg.port = some p → ∀ conn,
      checkMysql cfg conn =
        ⟨0, "配置无效: 端口号 " ++ toString p ++ " 不是有效的端口值", none⟩ ∧
      checkRedis cfg conn =
        ⟨0, "配置无效: 端口号 " ++ toString p ++ " 不是有效的端口值", none⟩)
    ∧ (∀ host ms, checkPortSingle ⟨host, p⟩ (SockOutcome.connected ms) =
        ⟨1, "端口开放", some ms⟩)
    ∧ (∀ cfg conn N ri, cfg.port = some p → 0 < N →
        (executeMonitorCheck (fun _ => checkMysql cfg conn) ⟨N, ri⟩).1 =
          ⟨0, "重试" ++ toString N ++ "次后仍然失败: " ++
            ("配置无效: 端口号 " ++ toString p ++ " 不是有效的端口值"),
            none⟩) := by
  refine ⟨?_, ?_, ?_⟩
  · intro cfg hport conn
    constructor
    · simp [checkMysql, hport, hp]
    · simp [checkRedis, hport, hp]
  · intro host ms
    rfl
  · intro cfg conn N ri hport hN
    have hmy : checkMysql cfg conn =
        ⟨0, "配置无效: 端口号 " ++ toString p ++ " 不是有效的端口值", none⟩ := by
      simp [checkMysql, hport, hp]
    have h := executeMonitorCheck_const_fail (checkMysql cfg conn)
      (by rw [hmy]) N ri hN
    rw [h, hmy]

/-- Witness for C8 amended at port 70000. -/
theorem portValidation_amended_spec_witness :
    checkMysql { port := some 70000 } (ConnOutcome.ok 5) =
      ⟨0, "配置无效: 端口号 70000 不是有效的端口值", none⟩ := by
  have h := ((portValidation_amended_spec 70000 (Or.inr (by norm_num))).1
    { port := some 70000 } rfl (ConnOutcome.ok 5)).1
  rw [h]
  rfl

end CoolMonitor
